import Mathlib

/-!
Verification of the jd-crawler core
=====

A shallow embedding, in Lean 4, of the job-posting crawler: the fetch
retry policy (src/crawler.py, tenacity configuration), the list
fingerprinting used for change detection (the per-parser
_compute_list_hash functions and compute_hash), the store reconciliation
(src/db.py upsert_job_posting and the crawl-target bookkeeping writes),
and the per-target crawl orchestration (crawl_target / crawl_all and the
three API crawlers).

Conventions of the embedding:
* Machine-level hashing is embedded concretely: SHA-256 is implemented
  over Nat bytes (checked below against the standard test vectors), and
  Python's json.dumps serialization of a list of string pairs is
  reproduced character by character.
* Timestamps are modelled by a monotone counter (World.clock); every
  datetime.now() call reads and advances it.
* The external store (Supabase) is modelled as in-memory lists of rows
  plus an append-only operation log (World.log) recording every store
  read and write the code performs, in execution order.
* Network I/O is modelled by oracles (Env): a function from request to
  outcome, with Python exceptions represented as error values at
  exactly the places the source can raise.
* Console printing is not modelled (it has no effect on state).
-/

/-! ## 32-bit arithmetic helpers (Nat, reduced mod 2^32) -/

def add32 (a b : Nat) : Nat := (a + b) % 4294967296

def xor32 (a b : Nat) : Nat := Nat.xor a b

def and32 (a b : Nat) : Nat := Nat.land a b

def not32 (a : Nat) : Nat := 4294967295 - a

def rotr32 (n x : Nat) : Nat := ((x >>> n) ||| (x <<< (32 - n))) % 4294967296

def shr32 (n x : Nat) : Nat := x >>> n

/-! ## SHA-256 over byte lists (hashlib.sha256) -/

def shaCh (x y z : Nat) : Nat := xor32 (and32 x y) (and32 (not32 x) z)

def shaMaj (x y z : Nat) : Nat := xor32 (xor32 (and32 x y) (and32 x z)) (and32 y z)

def bigSigma0 (x : Nat) : Nat := xor32 (xor32 (rotr32 2 x) (rotr32 13 x)) (rotr32 22 x)

def bigSigma1 (x : Nat) : Nat := xor32 (xor32 (rotr32 6 x) (rotr32 11 x)) (rotr32 25 x)

def smallSigma0 (x : Nat) : Nat := xor32 (xor32 (rotr32 7 x) (rotr32 18 x)) (shr32 3 x)

def smallSigma1 (x : Nat) : Nat := xor32 (xor32 (rotr32 17 x) (rotr32 19 x)) (shr32 10 x)

def shaK : List Nat := [1116352408, 1899447441, 3049323471, 3921009573, 961987163, 1508970993, 2453635748, 2870763221, 3624381080, 310598401, 607225278, 1426881987, 1925078388, 2162078206, 2614888103, 3248222580, 3835390401, 4022224774, 264347078, 604807628, 770255983, 1249150122, 1555081692, 1996064986, 2554220882, 2821834349, 2952996808, 3210313671, 3336571891, 3584528711, 113926993, 338241895, 666307205, 773529912, 1294757372, 1396182291, 1695183700, 1986661051, 2177026350, 2456956037, 2730485921, 2820302411, 3259730800, 3345764771, 3516065817, 3600352804, 4094571909, 275423344, 430227734, 506948616, 659060556, 883997877, 958139571, 1322822218, 1537002063, 1747873779, 1955562222, 2024104815, 2227730452, 2361852424, 2428436474, 2756734187, 3204031479, 3329325298]

def shaH0 : List Nat := [1779033703, 3144134277, 1013904242, 2773480762, 1359893119, 2600822924, 528734635, 1541459225]

/-- Group a byte list into 32-bit big-endian words. -/
def bytesToWords : List Nat → List Nat
  | b0 :: b1 :: b2 :: b3 :: rest => (((b0 * 256 + b1) * 256 + b2) * 256 + b3) :: bytesToWords rest
  | _ => []

/-- SHA-256 message padding: append 0x80, zeros, and the 64-bit bit length. -/
def shaPad (msg : List Nat) : List Nat :=
  let len := msg.length
  let zeros := (64 - (len + 9) % 64) % 64
  let bitLen := 8 * len
  msg ++ 128 :: List.replicate zeros 0 ++
    [bitLen >>> 56 % 256, bitLen >>> 48 % 256, bitLen >>> 40 % 256, bitLen >>> 32 % 256,
     bitLen >>> 24 % 256, bitLen >>> 16 % 256, bitLen >>> 8 % 256, bitLen % 256]

/-- Extend the 16 block words to the 64-word message schedule. -/
def shaSchedule (w16 : List Nat) : List Nat :=
  (List.range 48).foldl
    (fun w _ =>
      let n := w.length
      let wi := add32 (add32 (smallSigma1 (w.getD (n - 2) 0)) (w.getD (n - 7) 0))
                      (add32 (smallSigma0 (w.getD (n - 15) 0)) (w.getD (n - 16) 0))
      w ++ [wi]) w16

/-- One compression round on the eight-word working state. -/
def shaRound (st : List Nat) (kw : Nat × Nat) : List Nat :=
  match st with
  | [a, b, c, d, e, f, g, h] =>
    let t1 := add32 (add32 (add32 h (bigSigma1 e)) (add32 (shaCh e f g) kw.1)) kw.2
    let t2 := add32 (bigSigma0 a) (shaMaj a b c)
    [add32 t1 t2, a, b, c, add32 d t1, e, f, g]
  | st => st

/-- Compress one 64-byte block into the hash state. -/
def shaCompress (hs : List Nat) (block : List Nat) : List Nat :=
  let w := shaSchedule (bytesToWords block)
  let st := (shaK.zip w).foldl shaRound hs
  (hs.zip st).map (fun p => add32 p.1 p.2)

/-- Split into 64-byte blocks; the first argument is the block count. -/
def listChunks64 : Nat → List Nat → List (List Nat)
  | 0, _ => []
  | n + 1, l => l.take 64 :: listChunks64 n (l.drop 64)

def sha256bytes (msg : List Nat) : List Nat :=
  let padded := shaPad msg
  let blocks := listChunks64 (padded.length / 64) padded
  let hs := blocks.foldl shaCompress shaH0
  hs.flatMap (fun w => [w >>> 24 % 256, w >>> 16 % 256, w >>> 8 % 256, w % 256])

def hexDig (n : Nat) : Char := "0123456789abcdef".toList.getD n '0'

def byteToHex (b : Nat) : List Char := [hexDig (b / 16), hexDig (b % 16)]

/-- UTF-8 encoding of one character (str.encode building block). -/
def utf8Char (c : Char) : List Nat :=
  let n := c.toNat
  if n < 128 then [n]
  else if n < 2048 then [192 + n / 64, 128 + n % 64]
  else if n < 65536 then [224 + n / 4096, 128 + n / 64 % 64, 128 + n % 64]
  else [240 + n / 262144, 128 + n / 4096 % 64, 128 + n / 64 % 64, 128 + n % 64]

def utf8Bytes (s : String) : List Nat := s.data.flatMap utf8Char

/-- hashlib.sha256 of the UTF-8 bytes of a string, as a lowercase hex digest:
the common body of compute_hash (src/crawler.py) and of the per-parser
_compute_list_hash functions. -/
def sha256hex (s : String) : String :=
  ⟨(sha256bytes (utf8Bytes s)).flatMap byteToHex⟩

/-! ## json.dumps of a list of string pairs (default ensure_ascii=True)

This reproduces, character for character, what
json.dumps(pairs, sort_keys=True) produces for a list of 2-tuples of
strings (sort_keys only affects dicts, of which there are none in that
input). Checked against CPython's output on representative inputs,
including the short escapes, control characters and surrogate pairs. -/

/-- Four lowercase hex digits, Python's percent-format '%04x'. -/
def hex4 (n : Nat) : List Char :=
  [hexDig (n / 4096 % 16), hexDig (n / 256 % 16), hexDig (n / 16 % 16), hexDig (n % 16)]

/-- JSON escape of one character with ensure_ascii=True: the seven short
escapes, printable ASCII passed through, everything else as a
backslash-u hex sequence, using surrogate pairs for astral characters. -/
def escA (c : Char) : List Char :=
  if c = '"' then ['\\', '"']
  else if c = '\\' then ['\\', '\\']
  else if c = '\x08' then ['\\', 'b']
  else if c = '\x0c' then ['\\', 'f']
  else if c = '\n' then ['\\', 'n']
  else if c = '\r' then ['\\', 'r']
  else if c = '\t' then ['\\', 't']
  else if 0x20 ≤ c.toNat ∧ c.toNat ≤ 0x7e then [c]
  else if c.toNat < 0x10000 then '\\' :: 'u' :: hex4 c.toNat
  else
    let v := c.toNat - 0x10000
    ('\\' :: 'u' :: hex4 (0xd800 + v / 0x400)) ++ ('\\' :: 'u' :: hex4 (0xdc00 + v % 0x400))

/-- A JSON string literal, character level: quote, escaped body, quote. -/
def encStr (s : List Char) : List Char := '"' :: s.flatMap escA ++ ['"']

/-- One 2-tuple serialized as a two-element JSON array. -/
def encPair (p : List Char × List Char) : List Char :=
  '[' :: (encStr p.1 ++ ',' :: ' ' :: encStr p.2) ++ [']']

/-- json.dumps item separator for containers: a comma and a space. -/
def joinComma : List (List Char) → List Char
  | [] => []
  | [x] => x
  | x :: y :: t => x ++ ',' :: ' ' :: joinComma (y :: t)

def encPairList (l : List (List Char × List Char)) : List Char :=
  '[' :: joinComma (l.map encPair) ++ [']']

/-- json.dumps(pairs, sort_keys=True) for a list of 2-tuples of strings. -/
def pyJsonDumpsPairs (pairs : List (String × String)) : String :=
  ⟨encPairList (pairs.map (fun p => (p.1.data, p.2.data)))⟩

/-! ## Python sorted() on (string, string) tuples

Python compares tuples lexicographically and strings by code points;
Lean's String linear order is the same code-point order. sorted() is a
stable sort; List.mergeSort with the tuple less-or-equal is one. -/

/-- Tuple less-or-equal used by sorted(): lexicographic on the pair. -/
def pairLe (a b : String × String) : Bool :=
  decide (a.1 < b.1 ∨ (a.1 = b.1 ∧ a.2 ≤ b.2))

/-- Python sorted() over (id, last-modified) tuples. -/
def pySortedPairs (pairs : List (String × String)) : List (String × String) :=
  pairs.mergeSort pairLe

/-! ## Data model and store (src/db.py)

Rows of the two tables touched by the core, the in-memory store, and the
store operations. World.log records every store read and write in
execution order; World.clock models datetime.now(timezone.utc) as a
monotone counter, advanced on every call. -/

/-- A row of the job_postings table, with the columns the core touches. -/
structure JobPosting where
  crawl_target_id : Nat
  title : String
  company_name : String
  content_raw : String
  original_url : String
  analysis_result : Option String
  created_at : Nat
  updated_at : Nat
deriving DecidableEq, Repr

/-- A row of the crawl_targets table, restricted to the bookkeeping
columns the crawl mutates. -/
structure TargetRow where
  id : Nat
  last_list_hash : Option String
  last_checked_at : Option Nat
  last_error : Option String
deriving DecidableEq, Repr

/-- One store operation, as issued against the Supabase tables. -/
inductive StoreOp where
  | selectPostings (url : String)
  | insertPosting (p : JobPosting)
  | updatePosting (url : String) (title company content : String) (t : Nat)
  | updateChecked (tid : Nat) (t : Nat)
  | updateHash (tid : Nat) (digest : String) (t : Nat)
  | updateError (tid : Nat) (msg : String)
deriving DecidableEq, Repr

/-- The external world: clock, store contents, operation log. -/
structure World where
  clock : Nat
  targets : List TargetRow
  postings : List JobPosting
  log : List StoreOp
deriving DecidableEq, Repr

/-- datetime.now(timezone.utc): read the clock, advance it. -/
def pyNow (w : World) : Nat × World :=
  (w.clock, { w with clock := w.clock + 1 })

/-- update_target_checked (src/db.py): set last_checked_at for a target. -/
def update_target_checked (w : World) (target_id : Nat) : World :=
  let (now, w) := pyNow w
  { w with
    targets := w.targets.map (fun t =>
      if t.id = target_id then { t with last_checked_at := some now } else t),
    log := w.log ++ [.updateChecked target_id now] }

/-- update_target_hash (src/db.py): set last_list_hash and
last_checked_at for a target. -/
def update_target_hash (w : World) (target_id : Nat) (new_hash : String) : World :=
  let (now, w) := pyNow w
  { w with
    targets := w.targets.map (fun t =>
      if t.id = target_id then
        { t with last_list_hash := some new_hash, last_checked_at := some now }
      else t),
    log := w.log ++ [.updateHash target_id new_hash now] }

/-- Modelled from the spec: update_target_error is imported from src.db
by all three API parsers but its definition is not among the provided
sources; the spec's store interface lists updateTargetError(id, message)
and states that a terminal adapter failure "records the target's
last-error field". Modelled as writing the message to that one column. -/
def update_target_error (w : World) (target_id : Nat) (msg : String) : World :=
  { w with
    targets := w.targets.map (fun t =>
      if t.id = target_id then { t with last_error := some msg } else t),
    log := w.log ++ [.updateError target_id msg] }

/-- Classification returned by upsert_job_posting; the source returns the
strings NEW, UPDATED, SKIP used as keys into the stats dict. -/
inductive UpsertResult where
  | NEW
  | UPDATED
  | SKIP
deriving DecidableEq, Repr

/-- Per-target and aggregate counters, the stats dict of the source. -/
structure Stats where
  NEW : Nat
  UPDATED : Nat
  SKIP : Nat
  ERROR : Nat
deriving DecidableEq, Repr

/-- stats[result] += 1 on the three reconciliation keys. -/
def Stats.bump (s : Stats) : UpsertResult → Stats
  | .NEW => { s with NEW := s.NEW + 1 }
  | .UPDATED => { s with UPDATED := s.UPDATED + 1 }
  | .SKIP => { s with SKIP := s.SKIP + 1 }

/-- Componentwise sum, for aggregating target stats in crawl_all. -/
def Stats.add (a b : Stats) : Stats :=
  ⟨a.NEW + b.NEW, a.UPDATED + b.UPDATED, a.SKIP + b.SKIP, a.ERROR + b.ERROR⟩

/-- The row rewrite performed by the UPDATED branch of
upsert_job_posting: the .update({title, company_name, content_raw,
updated_at}).eq("original_url", url) statement, applied rowwise. -/
def postingUpdate (title company_name content_raw original_url : String) (now : Nat)
    (p : JobPosting) : JobPosting :=
  if p.original_url = original_url then
    { p with title := title, company_name := company_name,
             content_raw := content_raw, updated_at := now }
  else p

/-- upsert_job_posting (src/db.py): look up by original_url; insert when
absent (NEW), rewrite title/company/content/updated_at when the stored
content differs (UPDATED), write nothing when it is byte-identical
(SKIP). -/
def upsert_job_posting (w : World) (target_id : Nat) (title company_name : String)
    (content_raw original_url : String) : UpsertResult × World :=
  let existing := w.postings.filter (fun p => p.original_url == original_url)
  let w := { w with log := w.log ++ [.selectPostings original_url] }
  let (now, w) := pyNow w
  match existing with
  | old :: _ =>
    if old.content_raw = content_raw then
      (.SKIP, w)
    else
      (.UPDATED,
        { w with
          postings := w.postings.map (postingUpdate title company_name content_raw original_url now),
          log := w.log ++ [.updatePosting original_url title company_name content_raw now] })
  | [] =>
    let p : JobPosting :=
      { crawl_target_id := target_id, title := title, company_name := company_name,
        content_raw := content_raw, original_url := original_url,
        analysis_result := none, created_at := now, updated_at := now }
    (.NEW, { w with postings := w.postings ++ [p], log := w.log ++ [.insertPosting p] })

/-! ## Configuration (src/config.py) and the fetch retry policy
(src/crawler.py fetch_url with its tenacity decorator)

The decorator is
  retry(stop=stop_after_attempt(MAX_RETRIES),
        wait=wait_exponential(multiplier=RETRY_DELAY, min=1, max=10),
        retry=retry_if_exception_type((httpx.HTTPError, httpx.TimeoutException)),
        reraise=True)
Note the httpx exception hierarchy: HTTPStatusError (raised by
raise_for_status for every 4xx and 5xx response) and TimeoutException
are both subclasses of httpx.HTTPError, so the retry predicate holds for
any httpx error, status errors on 4xx responses included. -/

def MAX_RETRIES : Nat := 3

def RETRY_DELAY : Nat := 2

def REQUEST_TIMEOUT : Nat := 30

/-- Exceptions a fetch attempt can raise. The first three are httpx
errors (one class: HTTPStatusError carries the response status,
TimeoutException and the other transport errors do not); otherExc
stands for an exception outside the httpx hierarchy. -/
inductive FetchExc where
  | statusError (code : Nat)
  | timeout
  | transportError (msg : String)
  | otherExc (msg : String)
deriving DecidableEq, Repr

/-- retry_if_exception_type((httpx.HTTPError, httpx.TimeoutException)):
every httpx error is an instance of httpx.HTTPError, so only exceptions
outside that hierarchy are not retried. -/
def retryableExc : FetchExc → Bool
  | .statusError _ => true
  | .timeout => true
  | .transportError _ => true
  | .otherExc _ => false

/-- tenacity wait_exponential(multiplier=RETRY_DELAY, min=1, max=10):
the sleep after the k-th failed attempt (k counted from 1) is
multiplier * 2^(k-1), clamped into [min, max]. -/
def waitExponential (k : Nat) : Nat :=
  min 10 (max 1 (RETRY_DELAY * 2 ^ (k - 1)))

/-- One crawl-pass fetch oracle: the outcome of the k-th attempt at a
URL (the body text on success, the exception raised otherwise). -/
def FetchOracle := String → Nat → Except FetchExc String

/-- The tenacity retry loop around one decorated call, attempt number k,
with remaining permitted attempts. Returns the final outcome, the number
of attempts made, and the sleeps performed between attempts. -/
def tenacityRun (attempt : String → Nat → Except FetchExc String) (url : String) :
    Nat → Nat → Except FetchExc String × Nat × List Nat
  | k, remaining =>
    match attempt url k with
    | .ok body => (.ok body, 1, [])
    | .error e =>
      match remaining with
      | 0 => (.error e, 1, [])
      | r + 1 =>
        if retryableExc e then
          let (res, n, ws) := tenacityRun attempt url (k + 1) r
          (res, n + 1, waitExponential k :: ws)
        else
          (.error e, 1, [])

/-- fetch_url (src/crawler.py) under its retry decorator: up to
MAX_RETRIES attempts; reraise=True surfaces the last attempt's exception
unchanged. Besides the Python return value this embedding also exposes
the attempt count and the sleeps, which the claims quantify over. -/
def fetch_url (attempt : String → Nat → Except FetchExc String) (url : String) :
    Except FetchExc String × Nat × List Nat :=
  tenacityRun attempt url 1 (MAX_RETRIES - 1)

/-! ## json.dumps with ensure_ascii=False, for the content payloads

The _build_content_raw functions serialize a dict of vendor fields with
json.dumps(content, ensure_ascii=False): only the quote, the backslash,
and control characters are escaped; everything else passes through.
Objects keep insertion order; separators are a comma-space and a
colon-space. -/

/-- JSON escape of one character with ensure_ascii=False. -/
def escNA (c : Char) : List Char :=
  if c = '"' then ['\\', '"']
  else if c = '\\' then ['\\', '\\']
  else if c = '\x08' then ['\\', 'b']
  else if c = '\x0c' then ['\\', 'f']
  else if c = '\n' then ['\\', 'n']
  else if c = '\r' then ['\\', 'r']
  else if c = '\t' then ['\\', 't']
  else if c.toNat < 0x20 then '\\' :: 'u' :: hex4 c.toNat
  else [c]

/-- A JSON string literal with ensure_ascii=False. -/
def jsonStrNA (s : String) : String := ⟨'"' :: s.data.flatMap escNA ++ ['"']⟩

/-- A nullable string value: Python None serializes as null. -/
def jsonOfOptStr : Option String → String
  | some s => jsonStrNA s
  | none => "null"

/-- A nullable number value. -/
def jsonOfOptNat : Option Nat → String
  | some n => toString n
  | none => "null"

/-- A dict.get result used directly as a JSON value: both a missing key
and a stored None become null. -/
def jsonOfMetaVal : Option (Option String) → String
  | some (some s) => jsonStrNA s
  | _ => "null"

/-- A JSON object from already-serialized values, insertion order kept. -/
def jsonObjNA (fields : List (String × String)) : String :=
  "\x7b" ++ String.intercalate ", " (fields.map (fun f => jsonStrNA f.1 ++ ": " ++ f.2)) ++ "\x7d"

/-- A JSON array from already-serialized values. -/
def jsonArrNA (vals : List String) : String :=
  "[" ++ String.intercalate ", " vals ++ "]"

/-! ## Python dict as an association list (used for the metadata dicts)

Keys are kept unique; assignment overwrites the value of an existing
key, lookup returns the stored value (which can itself be None). -/

def dictSet (d : List (String × Option String)) (k : String) (v : Option String) :
    List (String × Option String) :=
  if d.any (fun p => p.1 == k) then d.map (fun p => if p.1 == k then (k, v) else p)
  else d ++ [(k, v)]

def dictGet (d : List (String × Option String)) (k : String) : Option (Option String) :=
  d.lookup k

/-- One entry of a Greenhouse-style metadata list: a dict with a name
and a value (either of which can be missing or None; a non-string value
is out of this model). -/
structure MetaEntry where
  name : Option String
  value : Option String
deriving DecidableEq, Repr

/-! ## Toss job groups API parser (src/parsers/toss_job_groups_api.py)

Upstream JSON objects are modelled structurally: a field of the Python
dict that the code reads becomes an Option-valued structure field (none
for a missing key), and raw carries the serialized form of the whole
upstream job object, which the code embeds verbatim in the content
payload. -/

namespace Toss

/-- The primary_job object, restricted to the fields the code reads. -/
structure TossJob where
  id : Option String
  updated_at : Option String
  absolute_url : Option String
  title : Option String
  metadata : Option (List MetaEntry)
  location_name : Option String
  requisition_id : Option String
  first_published : Option String
  raw : String
deriving DecidableEq, Repr

/-- One job group of the payload's success list. -/
structure TossGroup where
  title : Option String
  primary_job : Option TossJob
deriving DecidableEq, Repr

/-- The decoded API response body. -/
structure TossPayload where
  resultType : Option String
  success : Option (List TossGroup)
deriving DecidableEq, Repr

/-- The (job.get("id", ""), job.get("updated_at", "")) tuple of one job. -/
def jobPair (j : TossJob) : String × String :=
  (j.id.getD "", j.updated_at.getD "")

/-- The serialized sorted pair list, the content local of
_compute_list_hash. -/
def _list_hash_content (jobs : List TossJob) : String :=
  pyJsonDumpsPairs (pySortedPairs (jobs.map jobPair))

/-- The function _compute_list_hash: SHA-256 hex digest of the json.dumps of the
sorted (id, updated_at) pairs. -/
def _compute_list_hash (jobs : List TossJob) : String :=
  sha256hex (_list_hash_content jobs)

/-- The function _meta_to_dict: metadata entries to a dict keyed by name, skipping
entries whose name is falsy. -/
def _meta_to_dict (metadata : Option (List MetaEntry)) : List (String × Option String) :=
  (metadata.getD []).foldl
    (fun acc m =>
      match m.name with
      | some name => if name = "" then acc else dictSet acc name m.value
      | none => acc) []

/-- The function _build_company_name: a Toss / subsidiary composite when the
subsidiary metadata field is truthy. -/
def _build_company_name (meta : List (String × Option String)) : String :=
  match dictGet meta "포지션의 소속 자회사를 선택해 주세요." with
  | some (some subsidiary) =>
    if subsidiary = "" then "Toss" else "Toss / " ++ subsidiary
  | _ => "Toss"

/-- The long Job Description metadata key. -/
def jdKey : String :=
  "Job Description을 작성해 주세요.(작성 전, 채용 커뮤니케이션 가이드 노션을 꼭 참고해 주세요.)"

/-- The function _build_content_raw: the structured projection of the job, serialized
with json.dumps(ensure_ascii=False), with the raw job embedded verbatim. -/
def _build_content_raw (group : TossGroup) (job : TossJob)
    (meta : List (String × Option String)) : String :=
  jsonObjNA
    [("job_group_title", jsonOfOptStr group.title),
     ("location", jsonOfOptStr job.location_name),
     ("requisition_id", jsonOfOptStr job.requisition_id),
     ("first_published", jsonOfOptStr job.first_published),
     ("updated_at", jsonOfOptStr job.updated_at),
     ("employment_type", jsonOfMetaVal (dictGet meta "Employment_Type")),
     ("job_category", jsonOfMetaVal (dictGet meta "커리어 페이지 노출 Job Category 값을 선택해주세요")),
     ("keywords_external", jsonOfMetaVal (dictGet meta "외부 노출용 키워드를 입력해주세요. (최대 4개  / 1번 키워드 = 포지션 카테고리 / 나머지 키워드 = 포지션 특성에 맞게 작성)")),
     ("keywords_search", jsonOfMetaVal (dictGet meta "검색에 쓰일 키워드를 입력해주세요(신규 비즈니스의 초기멤버라면, 초기멤버 키워드를 작성하세요)")),
     ("description_markdown",
       match dictGet meta jdKey with
       | none => jsonStrNA ""
       | some v => jsonOfOptStr v),
     ("raw", job.raw)]

end Toss

/-! ## Daangn Greenhouse API parser (src/parsers/daangn_greenhouse_api.py) -/

namespace Daangn

/-- A department entry of a Greenhouse job. -/
structure DeptEntry where
  name : Option String
deriving DecidableEq, Repr

/-- One Greenhouse job object, restricted to the fields the code reads.
Greenhouse ids are numbers; the code converts them with str(). -/
structure DaangnJob where
  id : Option Nat
  updated_at : Option String
  title : Option String
  content : Option String
  location_name : Option String
  departments : Option (List DeptEntry)
  metadata : Option (List MetaEntry)
  requisition_id : Option String
  first_published : Option String
  raw : String
deriving DecidableEq, Repr

/-- The decoded board API response body. -/
structure DaangnPayload where
  jobs : Option (List DaangnJob)
deriving DecidableEq, Repr

/-- The (str(job.get("id", "")), job.get("updated_at", "")) tuple:
str of a missing id gives the empty string, str of a number its
decimal form. -/
def jobPair (j : DaangnJob) : String × String :=
  (match j.id with
   | some n => toString n
   | none => "", j.updated_at.getD "")

/-- The serialized sorted pair list, the content local of
_compute_list_hash. -/
def _list_hash_content (jobs : List DaangnJob) : String :=
  pyJsonDumpsPairs (pySortedPairs (jobs.map jobPair))

/-- The function _compute_list_hash: SHA-256 hex digest of the json.dumps of the
sorted (str(id), updated_at) pairs. -/
def _compute_list_hash (jobs : List DaangnJob) : String :=
  sha256hex (_list_hash_content jobs)

/-- The function _meta_to_dict, as in the Toss parser. -/
def _meta_to_dict (metadata : Option (List MetaEntry)) : List (String × Option String) :=
  (metadata.getD []).foldl
    (fun acc m =>
      match m.name with
      | some name => if name = "" then acc else dictSet acc name m.value
      | none => acc) []

/-- The function _build_company_name: a composite when the Corporate metadata field
is truthy and differs from the default brand. -/
def _build_company_name (meta : List (String × Option String)) : String :=
  match dictGet meta "Corporate" with
  | some (some corporate) =>
    if corporate = "" then "당근"
    else if corporate = "당근마켓" then "당근"
    else "당근 / " ++ corporate
  | _ => "당근"

/-- The department-name list comprehension of _build_content_raw. -/
def deptNames (j : DaangnJob) : List String :=
  (j.departments.getD []).filterMap (fun d =>
    match d.name with
    | some n => if n = "" then none else some n
    | none => none)

/-- The function _build_content_raw for a Greenhouse job. -/
def _build_content_raw (job : DaangnJob) (meta : List (String × Option String)) : String :=
  jsonObjNA
    [("location", jsonOfOptStr job.location_name),
     ("departments", jsonArrNA ((deptNames job).map jsonStrNA)),
     ("first_published", jsonOfOptStr job.first_published),
     ("updated_at", jsonOfOptStr job.updated_at),
     ("requisition_id", jsonOfOptStr job.requisition_id),
     ("employment_type", jsonOfMetaVal (dictGet meta "Employment Type")),
     ("prior_experience", jsonOfMetaVal (dictGet meta "Prior Experience")),
     ("alternative_civilian_service", jsonOfMetaVal (dictGet meta "Alternative Civilian Service")),
     ("keywords", jsonOfMetaVal (dictGet meta "Keywords")),
     ("description_html",
       match job.content with
       | none => jsonStrNA ""
       | some s => jsonStrNA s),
     ("raw", job.raw)]

end Daangn

/-! ## Kakao careers API parser (src/parsers/kakao_api.py) -/

namespace Kakao

/-- One entry of a job's skillSetList. -/
structure SkillEntry where
  skillSetName : Option String
deriving DecidableEq, Repr

/-- One Kakao job object, restricted to the fields the code reads. -/
structure KakaoJob where
  realId : Option String
  uptDate : Option String
  jobOfferTitle : Option String
  jobPartName : Option String
  companyName : Option String
  companyNameEn : Option String
  locationName : Option String
  locationNameEn : Option String
  employeeTypeName : Option String
  employeeTypeNameEn : Option String
  workTypeName : Option String
  recruitCount : Option Nat
  regDate : Option String
  endDate : Option String
  skillSetList : Option (List SkillEntry)
  introduction : Option String
  workContentDesc : Option String
  qualification : Option String
  jobOfferProcessDesc : Option String
  krewComment : Option String
  raw : String
deriving DecidableEq, Repr

/-- One page of the paginated careers API response. -/
structure KakaoPage where
  jobList : Option (List KakaoJob)
  totalPage : Option Nat
deriving DecidableEq, Repr

/-- The four fixed job categories the crawler iterates. -/
def JOB_PARTS : List String := ["TECHNOLOGY", "BUSINESS_SERVICES", "STAFF", "DESIGN"]

/-- The (job.get("realId", ""), job.get("uptDate", "")) tuple. -/
def jobPair (j : KakaoJob) : String × String :=
  (j.realId.getD "", j.uptDate.getD "")

/-- The serialized sorted pair list, the content local of
_compute_list_hash. -/
def _list_hash_content (jobs : List KakaoJob) : String :=
  pyJsonDumpsPairs (pySortedPairs (jobs.map jobPair))

/-- The function _compute_list_hash: SHA-256 hex digest of the json.dumps of the
sorted (realId, uptDate) pairs. -/
def _compute_list_hash (jobs : List KakaoJob) : String :=
  sha256hex (_list_hash_content jobs)

/-- The skill-name list comprehension of _build_content_raw. -/
def skillNames (j : KakaoJob) : List String :=
  (j.skillSetList.getD []).filterMap (fun s =>
    match s.skillSetName with
    | some n => if n = "" then none else some n
    | none => none)

/-- The function _build_content_raw for a Kakao job. -/
def _build_content_raw (job : KakaoJob) : String :=
  jsonObjNA
    [("job_part", jsonOfOptStr job.jobPartName),
     ("company_name", jsonOfOptStr job.companyName),
     ("company_name_en", jsonOfOptStr job.companyNameEn),
     ("location", jsonOfOptStr job.locationName),
     ("location_en", jsonOfOptStr job.locationNameEn),
     ("employee_type", jsonOfOptStr job.employeeTypeName),
     ("employee_type_en", jsonOfOptStr job.employeeTypeNameEn),
     ("work_type", jsonOfOptStr job.workTypeName),
     ("recruit_count", jsonOfOptNat job.recruitCount),
     ("reg_date", jsonOfOptStr job.regDate),
     ("updated_at", jsonOfOptStr job.uptDate),
     ("end_date", jsonOfOptStr job.endDate),
     ("skills", jsonArrNA ((skillNames job).map jsonStrNA)),
     ("introduction", jsonStrNA (job.introduction.getD "")),
     ("work_content", jsonStrNA (job.workContentDesc.getD "")),
     ("qualification", jsonStrNA (job.qualification.getD "")),
     ("hiring_process", jsonStrNA (job.jobOfferProcessDesc.getD "")),
     ("krew_comment", jsonStrNA (job.krewComment.getD "")),
     ("raw", job.raw)]

end Kakao

/-! ## Adapter-level exceptions and the environment of oracles

ApiExc covers the two except arms of the API crawlers:
requests.RequestException (any fetch failure, raise_for_status
included) and json.JSONDecodeError. Env packages every source of
nondeterminism one pass consumes: network outcomes per request and the
arbitrary per-item exceptions absorbed by the per-item try/except
(modelled as an oracle keyed by loop index, since except Exception
absorbs any runtime failure inside the block). -/

inductive ApiExc where
  | requestExc (msg : String)
  | jsonDecodeExc (msg : String)
deriving DecidableEq, Repr

/-- A job item extracted from a list page (src/parsers/base.py). -/
structure JobItem where
  title : String
  url : String
  company_name : String
deriving DecidableEq, Repr

/-- The BaseParser interface consumed by crawl_target. The concrete
GenericParser methods are BeautifulSoup computations over markup; the
embedding treats them as opaque total/fallible string functions. -/
structure ParserBehavior where
  normalize_html : String → String
  parse_list : String → Except String (List JobItem)
  parse_detail : String → Except String String

/-- All oracles one crawl pass consumes. -/
structure Env where
  generic : String → ParserBehavior
  attempt : String → Nat → Except FetchExc String
  tossApi : String → Except ApiExc Toss.TossPayload
  daangnApi : String → Except ApiExc Daangn.DaangnPayload
  kakaoApi : String → String → Nat → Except ApiExc Kakao.KakaoPage
  kakaoFuel : Nat
  tossItemExc : Nat → Option String
  daangnItemExc : Nat → Option String
  kakaoItemExc : Nat → Option String

/-- A crawl_targets row as handed to crawl_target (the dict read at the
start of the pass; bookkeeping writes go to World.targets). -/
structure Target where
  id : Nat
  parser_type : Option String
  list_url : String
  parser_config : Option String
  last_list_hash : Option String
deriving DecidableEq, Repr

/-- Python str() of an optional string, as interpolated into an f-string
(None prints as None). -/
def pyShowOpt : Option String → String
  | some s => s
  | none => "None"

namespace Toss

/-- The per-group loop of crawl_toss_api. The index feeds the
exception oracle for the try/except around each item. -/
def processGroups (env : Env) (target_id : Nat) :
    List TossGroup → Nat → Stats → World → Stats × World
  | [], _, stats, w => (stats, w)
  | group :: rest, i, stats, w =>
    match group.primary_job with
    | none => processGroups env target_id rest (i + 1) stats w
    | some job =>
      match job.absolute_url with
      | none => processGroups env target_id rest (i + 1) stats w
      | some original_url =>
        if original_url = "" then processGroups env target_id rest (i + 1) stats w
        else
          match env.tossItemExc i with
          | some _ =>
            processGroups env target_id rest (i + 1) { stats with ERROR := stats.ERROR + 1 } w
          | none =>
            let meta := _meta_to_dict job.metadata
            let company_name := _build_company_name meta
            let content_raw := _build_content_raw group job meta
            let title := job.title.getD "Untitled"
            let (result, w') :=
              upsert_job_posting w target_id title company_name content_raw original_url
            processGroups env target_id rest (i + 1) (stats.bump result) w'

/-- crawl_toss_api (src/parsers/toss_job_groups_api.py). -/
def crawl_toss_api (env : Env) (w : World) (target : Target) : Stats × World :=
  let stats : Stats := ⟨0, 0, 0, 0⟩
  let target_id := target.id
  let api_url := target.list_url
  let last_list_hash := target.last_list_hash
  match env.tossApi api_url with
  | .error (.requestExc e) =>
    let error_msg := "Failed to fetch API: " ++ e
    ({ stats with ERROR := stats.ERROR + 1 }, update_target_error w target_id error_msg)
  | .error (.jsonDecodeExc e) =>
    let error_msg := "Invalid JSON response: " ++ e
    ({ stats with ERROR := stats.ERROR + 1 }, update_target_error w target_id error_msg)
  | .ok payload =>
    if payload.resultType ≠ some "SUCCESS" then
      let error_msg := "API returned non-SUCCESS: " ++ pyShowOpt payload.resultType
      ({ stats with ERROR := stats.ERROR + 1 }, update_target_error w target_id error_msg)
    else
      let groups := payload.success.getD []
      if groups.isEmpty then (stats, update_target_checked w target_id)
      else
        let primary_jobs := groups.filterMap (fun g => g.primary_job)
        let current_hash := _compute_list_hash primary_jobs
        if last_list_hash = some current_hash then (stats, update_target_checked w target_id)
        else
          let (stats, w) := processGroups env target_id groups 0 stats w
          (stats, update_target_hash w target_id current_hash)

end Toss

namespace Daangn

/-- The per-job loop of crawl_daangn_api. Note Python falsiness of the
id: a missing id and the number 0 are both skipped. -/
def processJobs (env : Env) (target_id : Nat) :
    List DaangnJob → Nat → Stats → World → Stats × World
  | [], _, stats, w => (stats, w)
  | job :: rest, i, stats, w =>
    match job.id with
    | none => processJobs env target_id rest (i + 1) stats w
    | some job_id =>
      if job_id = 0 then processJobs env target_id rest (i + 1) stats w
      else
        let original_url := "https://about.daangn.com/jobs/" ++ toString job_id ++ "/"
        match env.daangnItemExc i with
        | some _ =>
          processJobs env target_id rest (i + 1) { stats with ERROR := stats.ERROR + 1 } w
        | none =>
          let meta := _meta_to_dict job.metadata
          let company_name := _build_company_name meta
          let content_raw := _build_content_raw job meta
          let title := job.title.getD "Untitled"
          let (result, w') :=
            upsert_job_posting w target_id title company_name content_raw original_url
          processJobs env target_id rest (i + 1) (stats.bump result) w'

/-- crawl_daangn_api (src/parsers/daangn_greenhouse_api.py). -/
def crawl_daangn_api (env : Env) (w : World) (target : Target) : Stats × World :=
  let stats : Stats := ⟨0, 0, 0, 0⟩
  let target_id := target.id
  let api_url := target.list_url
  let last_list_hash := target.last_list_hash
  match env.daangnApi api_url with
  | .error (.requestExc e) =>
    let error_msg := "Failed to fetch API: " ++ e
    ({ stats with ERROR := stats.ERROR + 1 }, update_target_error w target_id error_msg)
  | .error (.jsonDecodeExc e) =>
    let error_msg := "Invalid JSON response: " ++ e
    ({ stats with ERROR := stats.ERROR + 1 }, update_target_error w target_id error_msg)
  | .ok payload =>
    let jobs := payload.jobs.getD []
    if jobs.isEmpty then (stats, update_target_checked w target_id)
    else
      let current_hash := _compute_list_hash jobs
      if last_list_hash = some current_hash then (stats, update_target_checked w target_id)
      else
        let (stats, w) := processJobs env target_id jobs 0 stats w
        (stats, update_target_hash w target_id current_hash)

end Daangn

namespace Kakao

/-- The while-True pagination loop for one part of _fetch_all_jobs.
The source loop is unbounded (it trusts the upstream totalPage); the
embedding bounds the number of continue steps by a fuel and truncates
when it runs out, which no claim exercises. The first request of a part
is always issued, as in the source. -/
def pagesLoop (api : String → Nat → Except ApiExc KakaoPage) (part : String) :
    Nat → Nat → Except ApiExc (List KakaoJob)
  | fuel, page =>
    match api part page with
    | .error e => .error e
    | .ok payload =>
      let job_list := payload.jobList.getD []
      let total_page := payload.totalPage.getD 1
      if total_page ≤ page then .ok job_list
      else
        match fuel with
        | 0 => .ok job_list
        | f + 1 =>
          match pagesLoop api part f (page + 1) with
          | .error e => .error e
          | .ok restJobs => .ok (job_list ++ restJobs)

/-- The outer loop of _fetch_all_jobs over the fixed category list. -/
def fetchParts (env : Env) (base_url : String) : List String → Except ApiExc (List KakaoJob)
  | [] => .ok []
  | part :: rest =>
    match pagesLoop (env.kakaoApi base_url) part env.kakaoFuel 1 with
    | .error e => .error e
    | .ok jobs =>
      match fetchParts env base_url rest with
      | .error e => .error e
      | .ok more => .ok (jobs ++ more)

/-- The function _fetch_all_jobs (src/parsers/kakao_api.py). -/
def _fetch_all_jobs (env : Env) (base_url : String) : Except ApiExc (List KakaoJob) :=
  fetchParts env base_url JOB_PARTS

/-- The per-job loop of crawl_kakao_api. -/
def processJobs (env : Env) (target_id : Nat) :
    List KakaoJob → Nat → Stats → World → Stats × World
  | [], _, stats, w => (stats, w)
  | job :: rest, i, stats, w =>
    match job.realId with
    | none => processJobs env target_id rest (i + 1) stats w
    | some real_id =>
      if real_id = "" then processJobs env target_id rest (i + 1) stats w
      else
        let original_url := "https://careers.kakao.com/jobs/" ++ real_id
        match env.kakaoItemExc i with
        | some _ =>
          processJobs env target_id rest (i + 1) { stats with ERROR := stats.ERROR + 1 } w
        | none =>
          let company_name := job.companyName.getD "카카오"
          let content_raw := _build_content_raw job
          let title := job.jobOfferTitle.getD "Untitled"
          let (result, w') :=
            upsert_job_posting w target_id title company_name content_raw original_url
          processJobs env target_id rest (i + 1) (stats.bump result) w'

/-- crawl_kakao_api (src/parsers/kakao_api.py). -/
def crawl_kakao_api (env : Env) (w : World) (target : Target) : Stats × World :=
  let stats : Stats := ⟨0, 0, 0, 0⟩
  let target_id := target.id
  let api_url := target.list_url
  let last_list_hash := target.last_list_hash
  match _fetch_all_jobs env api_url with
  | .error (.requestExc e) =>
    let error_msg := "Failed to fetch API: " ++ e
    ({ stats with ERROR := stats.ERROR + 1 }, update_target_error w target_id error_msg)
  | .error (.jsonDecodeExc e) =>
    let error_msg := "Invalid JSON response: " ++ e
    ({ stats with ERROR := stats.ERROR + 1 }, update_target_error w target_id error_msg)
  | .ok all_jobs =>
    if all_jobs.isEmpty then (stats, update_target_checked w target_id)
    else
      let current_hash := _compute_list_hash all_jobs
      if last_list_hash = some current_hash then (stats, update_target_checked w target_id)
      else
        let (stats, w) := processJobs env target_id all_jobs 0 stats w
        (stats, update_target_hash w target_id current_hash)

end Kakao

/-! ## HTML parser registry and orchestration (src/parsers/init, src/crawler.py) -/

/-- PARSER_REGISTRY: the HTML parser registry; only "generic" is
registered. The generic entry is the GenericParser class, whose
constructor takes the parser_config. -/
def PARSER_REGISTRY (generic : String → ParserBehavior) :
    List (String × (String → ParserBehavior)) :=
  [("generic", generic)]

/-- get_parser (src/parsers/init): registry lookup by parser_type,
raising ValueError (the error value) when unregistered. Renamed from
the source's get_parser to fit this file's naming constraints. -/
def getParser (generic : String → ParserBehavior) (parser_type : String)
    (config : String) : Except String ParserBehavior :=
  match (PARSER_REGISTRY generic).lookup parser_type with
  | some cls => .ok (cls config)
  | none => .error ("Unknown parser_type: " ++ parser_type ++ ". Available: ['generic']")

/-- compute_hash (src/crawler.py): SHA-256 hex digest of the UTF-8
content. -/
def compute_hash (content : String) : String := sha256hex content

/-- API_PARSER_TYPES (src/crawler.py). -/
def API_PARSER_TYPES : List String :=
  ["toss_job_groups_api", "daangn_greenhouse_api", "kakao_api"]

/-- The per-item loop of crawl_target's HTML path: detail fetch (through
fetch_url and its retries), detail parse, empty-content skip, upsert;
any failure in the try block counts one ERROR and moves on. -/
def processItems (env : Env) (psr : ParserBehavior) (target_id : Nat) :
    List JobItem → Stats → World → Stats × World
  | [], stats, w => (stats, w)
  | item :: rest, stats, w =>
    match (fetch_url env.attempt item.url).1 with
    | .error _ => processItems env psr target_id rest { stats with ERROR := stats.ERROR + 1 } w
    | .ok detail_html =>
      match psr.parse_detail detail_html with
      | .error _ => processItems env psr target_id rest { stats with ERROR := stats.ERROR + 1 } w
      | .ok content_raw =>
        if content_raw = "" then processItems env psr target_id rest stats w
        else
          let (result, w') :=
            upsert_job_posting w target_id item.title item.company_name content_raw item.url
          processItems env psr target_id rest (stats.bump result) w'

/-- crawl_target (src/crawler.py). The source first tests membership in
API_PARSER_TYPES and then dispatches on the three kinds; the chain is
exhaustive over the membership set, so it flattens to this if chain with
the HTML path as the final else. -/
def crawl_target (env : Env) (w : World) (target : Target) : Stats × World :=
  let parser_type := target.parser_type.getD "generic"
  if parser_type = "toss_job_groups_api" then Toss.crawl_toss_api env w target
  else if parser_type = "daangn_greenhouse_api" then Daangn.crawl_daangn_api env w target
  else if parser_type = "kakao_api" then Kakao.crawl_kakao_api env w target
  else
    let stats : Stats := ⟨0, 0, 0, 0⟩
    let target_id := target.id
    let list_url := target.list_url
    let parser_config := target.parser_config.getD ""
    let last_list_hash := target.last_list_hash
    match (fetch_url env.attempt list_url).1 with
    | .error _ => ({ stats with ERROR := stats.ERROR + 1 }, w)
    | .ok list_html =>
      match getParser env.generic parser_type parser_config with
      | .error _ => ({ stats with ERROR := stats.ERROR + 1 }, w)
      | .ok psr =>
        let normalized_html := psr.normalize_html list_html
        let current_hash := compute_hash normalized_html
        if last_list_hash = some current_hash then (stats, update_target_checked w target_id)
        else
          match psr.parse_list list_html with
          | .error _ => ({ stats with ERROR := stats.ERROR + 1 }, w)
          | .ok job_items =>
            if job_items.isEmpty then (stats, update_target_hash w target_id current_hash)
            else
              let (stats, w) := processItems env psr target_id job_items stats w
              (stats, update_target_hash w target_id current_hash)

/-- The target loop of crawl_all, carrying the running totals. -/
def crawl_all_from (env : Env) (w : World) : List Target → Stats → Stats × World
  | [], total => (total, w)
  | t :: ts, total =>
    let (s, w') := crawl_target env w t
    crawl_all_from env w' ts (total.add s)

/-- crawl_all (src/crawler.py): sequential pass over all targets,
aggregating stats componentwise. -/
def crawl_all (env : Env) (w : World) (targets : List Target) : Stats × World :=
  crawl_all_from env w targets ⟨0, 0, 0, 0⟩

/-! ## Decoders for the pair-list serialization

Proof tools, not part of the source: a decoder for the json.dumps image
of a list of string pairs, used to prove the serialization injective. -/

/-- Value of one lowercase hex digit. -/
def hexVal (c : Char) : Option Nat :=
  if c = '0' then some 0 else if c = '1' then some 1
  else if c = '2' then some 2 else if c = '3' then some 3
  else if c = '4' then some 4 else if c = '5' then some 5
  else if c = '6' then some 6 else if c = '7' then some 7
  else if c = '8' then some 8 else if c = '9' then some 9
  else if c = 'a' then some 10 else if c = 'b' then some 11
  else if c = 'c' then some 12 else if c = 'd' then some 13
  else if c = 'e' then some 14 else if c = 'f' then some 15
  else none

def hex4V (h1 h2 h3 h4 : Char) : Option Nat :=
  match hexVal h1, hexVal h2, hexVal h3, hexVal h4 with
  | some a, some b, some c, some d => some (((a * 16 + b) * 16 + c) * 16 + d)
  | _, _, _, _ => none

/-- Inverse of the seven short escapes. -/
def unescSimple (e : Char) : Option Char :=
  if e = '"' then some '"'
  else if e = '\\' then some '\\'
  else if e = 'b' then some '\x08'
  else if e = 'f' then some '\x0c'
  else if e = 'n' then some '\n'
  else if e = 'r' then some '\r'
  else if e = 't' then some '\t'
  else none

def consFst (c : Char) : Option (List Char × List Char) → Option (List Char × List Char)
  | some (s, r) => some (c :: s, r)
  | none => none

def surrChar (n m : Nat) : Char :=
  Char.ofNat (65536 + (n - 55296) * 1024 + (m - 56320))

/-- Decoder for the body of a JSON string literal (after the opening
quote), up to and excluding the closing quote; a proof tool used to show
the encoding injective. -/
def decStr : Nat → List Char → Option (List Char × List Char)
  | 0, _ => none
  | _ + 1, [] => none
  | fuel + 1, c :: cs =>
    if c = '"' then some ([], cs)
    else if c = '\\' then
      match cs with
      | [] => none
      | e :: cs1 =>
        if e = 'u' then
          match cs1 with
          | h1 :: h2 :: h3 :: h4 :: cs2 =>
            match hex4V h1 h2 h3 h4 with
            | none => none
            | some n =>
              if 55296 ≤ n ∧ n ≤ 56319 then
                match cs2 with
                | b1 :: u1 :: g1 :: g2 :: g3 :: g4 :: cs3 =>
                  if b1 = '\\' ∧ u1 = 'u' then
                    match hex4V g1 g2 g3 g4 with
                    | some m =>
                      if 56320 ≤ m ∧ m ≤ 57343 then
                        consFst (surrChar n m) (decStr fuel cs3)
                      else none
                    | none => none
                  else none
                | _ => none
              else consFst (Char.ofNat n) (decStr fuel cs2)
          | _ => none
        else
          match unescSimple e with
          | some d => consFst d (decStr fuel cs1)
          | none => none
    else consFst c (decStr fuel cs)

/-- Decoder for one serialized pair (a two-element JSON array of
strings). -/
def decPair (fuel : Nat) (cs : List Char) : Option ((List Char × List Char) × List Char) :=
  match cs with
  | c0 :: c1 :: cs1 =>
    if c0 = '[' ∧ c1 = '"' then
      match decStr fuel cs1 with
      | some (a, r1) =>
        match r1 with
        | d0 :: d1 :: d2 :: r2 =>
          if d0 = ',' ∧ d1 = ' ' ∧ d2 = '"' then
            match decStr fuel r2 with
            | some (b, r3) =>
              match r3 with
              | e0 :: r4 => if e0 = ']' then some ((a, b), r4) else none
              | [] => none
            | none => none
          else none
        | _ => none
      | none => none
    else none
  | _ => none

/-- Decoder for a nonempty comma-space separated pair sequence followed
by the closing bracket. -/
def decListAux (fuel : Nat) : Nat → List Char → Option (List (List Char × List Char) × List Char)
  | 0, _ => none
  | f + 1, cs =>
    match decPair fuel cs with
    | some (p, r) =>
      match r with
      | d0 :: rs =>
        if d0 = ',' then
          match rs with
          | d1 :: rs2 =>
            if d1 = ' ' then
              match decListAux fuel f rs2 with
              | some (q, r2) => some (p :: q, r2)
              | none => none
            else none
          | [] => none
        else if d0 = ']' then some ([p], rs)
        else none
      | [] => none
    | none => none

/-- Decoder for the full serialized pair list. -/
def decList (fuel fuel2 : Nat) (cs : List Char) :
    Option (List (List Char × List Char) × List Char) :=
  match cs with
  | c0 :: c1 :: cs2 =>
    if c0 = '[' then
      if c1 = ']' then some ([], cs2)
      else decListAux fuel fuel2 (c1 :: cs2)
    else none
  | _ => none

/-- Upper bound on component lengths of a pair list. -/
def pairsLenBound (l : List (List Char × List Char)) : Nat :=
  l.foldr (fun p m => max (max p.1.length p.2.length) m) 0

/-! ## Concrete fixtures used by witnesses and counterexamples -/

/-- Fixture for the C3 counterexample: a Toss job with id A, timestamp t. -/
def c3Job : Toss.TossJob :=
  { id := some "A", updated_at := some "t", absolute_url := none, title := none,
    metadata := none, location_name := none, requisition_id := none,
    first_published := none, raw := "" }

/-- Fixture for the C3 witness. -/
def c3wJobA : Toss.TossJob :=
  { id := some "A", updated_at := some "t1", absolute_url := none, title := none,
    metadata := none, location_name := none, requisition_id := none,
    first_published := none, raw := "" }

/-- Fixture for the C3 witness. -/
def c3wJobB : Toss.TossJob :=
  { id := some "B", updated_at := some "t2", absolute_url := none, title := none,
    metadata := none, location_name := none, requisition_id := none,
    first_published := none, raw := "" }

/-- Fixture for the C4 witness. -/
def c4JobA : Toss.TossJob :=
  { id := some "J1", updated_at := some "u1", absolute_url := some "https://a",
    title := some "T1", metadata := none, location_name := none,
    requisition_id := none, first_published := none, raw := "" }

/-- Fixture for the C4 witness. -/
def c4JobB : Toss.TossJob :=
  { id := some "J2", updated_at := some "u2", absolute_url := some "https://b",
    title := some "T2", metadata := none, location_name := none,
    requisition_id := none, first_published := none, raw := "" }

/-- Fixture for the C2 counterexample: every attempt gets an HTTP 404
status error (raised by raise_for_status, an httpx.HTTPStatusError). -/
def oracle404 : String → Nat → Except FetchExc String :=
  fun _ _ => .error (.statusError 404)

/-- Fixture for the C2 witness: the first attempt raises an exception
outside the httpx hierarchy. -/
def c2Oracle : String → Nat → Except FetchExc String :=
  fun _ n => if n = 1 then .error (.otherExc "boom") else .ok "body"

/-- Fixture for the C5 witness: a stored posting. -/
def c5Posting : JobPosting :=
  { crawl_target_id := 7, title := "T", company_name := "C", content_raw := "body",
    original_url := "https://x", analysis_result := none, created_at := 5, updated_at := 6 }

/-- Fixture for the C5 witness. -/
def c5World : World := { clock := 100, targets := [], postings := [c5Posting], log := [] }

/-- Fixture for the C6 witness: an empty store. -/
def c6World : World := { clock := 50, targets := [], postings := [], log := [] }

/-- Fixture for the C7 witness: a stored posting whose content will
change. -/
def c7Posting : JobPosting :=
  { crawl_target_id := 9, title := "T", company_name := "C", content_raw := "old-body",
    original_url := "https://y", analysis_result := some "a", created_at := 3, updated_at := 4 }

/-- Fixture for the C7 witness. -/
def c7World : World := { clock := 200, targets := [], postings := [c7Posting], log := [] }

/-- Fixture parser behavior for orchestration witnesses: identity
normalization, empty list, identity detail extraction. -/
def c10Behavior : ParserBehavior :=
  { normalize_html := fun s => s, parse_list := fun _ => .ok [], parse_detail := fun s => .ok s }

/-- Fixture environment for the C10 witness. -/
def c10Env : Env :=
  { generic := fun _ => c10Behavior,
    attempt := fun _ _ => .ok "<html></html>",
    tossApi := fun _ => .error (.requestExc "unused"),
    daangnApi := fun _ => .error (.requestExc "unused"),
    kakaoApi := fun _ _ _ => .error (.requestExc "unused"),
    kakaoFuel := 0,
    tossItemExc := fun _ => none,
    daangnItemExc := fun _ => none,
    kakaoItemExc := fun _ => none }

/-- Fixture target for the C10 witness: an unregistered parser kind. -/
def c10Target : Target :=
  { id := 1, parser_type := some "wanted", list_url := "https://w",
    parser_config := none, last_list_hash := none }

/-- Fixture store for the C10 witness. -/
def c10World : World :=
  { clock := 0, targets := [⟨1, none, none, none⟩], postings := [], log := [] }

/-- Fixture parser behavior for the C9 witness. -/
def c9Behavior : ParserBehavior :=
  { normalize_html := fun s => s, parse_list := fun _ => .ok [], parse_detail := fun s => .ok s }

/-- Fixture environment for the C9 witness. -/
def c9Env : Env :=
  { generic := fun _ => c9Behavior,
    attempt := fun _ _ => .ok "<page>",
    tossApi := fun _ => .error (.requestExc "unused"),
    daangnApi := fun _ => .error (.requestExc "unused"),
    kakaoApi := fun _ _ _ => .error (.requestExc "unused"),
    kakaoFuel := 0,
    tossItemExc := fun _ => none,
    daangnItemExc := fun _ => none,
    kakaoItemExc := fun _ => none }

/-- Fixture target for the C9 witness: the stored fingerprint already
equals the hash the pass will compute. -/
def c9Target : Target :=
  { id := 2, parser_type := some "generic", list_url := "https://p",
    parser_config := none, last_list_hash := some (compute_hash "<page>") }

/-- Fixture store for the C9 witness. -/
def c9World : World :=
  { clock := 10, targets := [⟨2, some "h", some 1, none⟩], postings := [], log := [] }

/-- The observable effect of a terminal API-adapter failure: one ERROR
and nothing else, the message written to the target's last-error column,
the error write being the only store operation, postings and clock
untouched. -/
def terminalErrorOutcome (w : World) (tid : Nat) (msg : String) (r : Stats × World) : Prop :=
  r.1 = ⟨0, 0, 0, 1⟩ ∧
  r.2.postings = w.postings ∧
  r.2.clock = w.clock ∧
  r.2.log = w.log ++ [.updateError tid msg] ∧
  r.2.targets = w.targets.map (fun t =>
    if t.id = tid then { t with last_error := some msg } else t)

/-- Store operations against the job_postings table (as opposed to the
crawl_targets bookkeeping columns). -/
def isPostingOp : StoreOp → Bool
  | .selectPostings _ => true
  | .insertPosting _ => true
  | .updatePosting _ _ _ _ _ => true
  | _ => false

/-- Fixture environment for the C1 counterexample: every fetch attempt
times out, so the HTML list fetch fails terminally after the retry
budget. -/
def c1Env : Env :=
  { generic := fun _ => c10Behavior,
    attempt := fun _ _ => .error .timeout,
    tossApi := fun _ => .error (.requestExc "unused"),
    daangnApi := fun _ => .error (.requestExc "unused"),
    kakaoApi := fun _ _ _ => .error (.requestExc "unused"),
    kakaoFuel := 0,
    tossItemExc := fun _ => none,
    daangnItemExc := fun _ => none,
    kakaoItemExc := fun _ => none }

/-- Fixture target for the C1 counterexample: an HTML (generic) target. -/
def c1Target : Target :=
  { id := 5, parser_type := some "generic", list_url := "https://fail",
    parser_config := none, last_list_hash := none }

/-- Fixture store for the C1 counterexample. -/
def c1World : World :=
  { clock := 0, targets := [⟨5, none, none, none⟩], postings := [], log := [] }

/-- Fixture environment for the C1 witness: the Toss API fetch raises. -/
def c1wEnv : Env :=
  { generic := fun _ => c10Behavior,
    attempt := fun _ _ => .ok "unused",
    tossApi := fun _ => .error (.requestExc "HTTP 500"),
    daangnApi := fun _ => .error (.requestExc "unused"),
    kakaoApi := fun _ _ _ => .error (.requestExc "unused"),
    kakaoFuel := 0,
    tossItemExc := fun _ => none,
    daangnItemExc := fun _ => none,
    kakaoItemExc := fun _ => none }

/-- Fixture target for the C1 witness. -/
def c1wTarget : Target :=
  { id := 6, parser_type := some "toss_job_groups_api", list_url := "https://toss-api",
    parser_config := none, last_list_hash := none }

/-- Fixture store for the C1 witness. -/
def c1wWorld : World :=
  { clock := 0, targets := [⟨6, none, none, none⟩], postings := [], log := [] }

/-- Fixture job for the C8 witness. -/
def c8Job : Toss.TossJob :=
  { id := some "J", updated_at := some "u", absolute_url := some "https://j",
    title := some "T", metadata := none, location_name := none,
    requisition_id := none, first_published := none, raw := "" }

/-- Fixture payload for the C8 witness: one group, SUCCESS. -/
def c8Payload : Toss.TossPayload :=
  { resultType := some "SUCCESS", success := some [{ title := some "G", primary_job := some c8Job }] }

/-- Fixture environment for the C8 witness. -/
def c8Env : Env :=
  { generic := fun _ => c10Behavior,
    attempt := fun _ _ => .ok "unused",
    tossApi := fun _ => .ok c8Payload,
    daangnApi := fun _ => .error (.requestExc "unused"),
    kakaoApi := fun _ _ _ => .error (.requestExc "unused"),
    kakaoFuel := 0,
    tossItemExc := fun _ => none,
    daangnItemExc := fun _ => none,
    kakaoItemExc := fun _ => none }

/-- Fixture target for the C8 witness: no stored fingerprint, so the
computed one differs. -/
def c8Target : Target :=
  { id := 8, parser_type := some "toss_job_groups_api", list_url := "https://t",
    parser_config := none, last_list_hash := none }

/-- Fixture store for the C8 witness. -/
def c8World : World :=
  { clock := 0, targets := [⟨8, none, none, none⟩], postings := [], log := [] }

/-! # Theorems

First the infrastructure lemmas (digest test vectors, decoder
roundtrips, serialization injectivity, sortedness), then one theorem per
claim with its witnesses and counterexamples. -/

/-- Standard SHA-256 test vector, checking the embedding of the digest. -/
theorem sha256hex_empty :
    sha256hex "" = "e3b0c44298fc1c149afbf4c8996fb92427ae41e4649b934ca495991b7852b855" := by
  decide

/-- Standard SHA-256 test vector, checking the embedding of the digest. -/
theorem sha256hex_abc :
    sha256hex "abc" = "ba7816bf8f01cfea414140de5dae2223b00361a396177a9cb410ff61f20015ad" := by
  decide

theorem hexVal_hexDig : ∀ d : Fin 16, hexVal (hexDig d.val) = some d.val := by decide

theorem hex4V_hex4 (n : Nat) (h : n < 65536) :
    hex4V (hexDig (n / 4096 % 16)) (hexDig (n / 256 % 16)) (hexDig (n / 16 % 16))
      (hexDig (n % 16)) = some n := by
  have h1 := hexVal_hexDig ⟨n / 4096 % 16, Nat.mod_lt _ (by omega)⟩
  have h2 := hexVal_hexDig ⟨n / 256 % 16, Nat.mod_lt _ (by omega)⟩
  have h3 := hexVal_hexDig ⟨n / 16 % 16, Nat.mod_lt _ (by omega)⟩
  have h4 := hexVal_hexDig ⟨n % 16, Nat.mod_lt _ (by omega)⟩
  simp only at h1 h2 h3 h4
  simp only [hex4V, h1, h2, h3, h4]
  congr 1
  omega

theorem decStr_step_lit (f : Nat) (c : Char) (tail : List Char)
    (h1 : c ≠ '"') (h2 : c ≠ '\\') :
    decStr (f + 1) (c :: tail) = consFst c (decStr f tail) := by
  simp [decStr, h1, h2]

theorem decStr_step_esc (f : Nat) (x d : Char) (tail : List Char)
    (hxu : x ≠ 'u') (hx : unescSimple x = some d) :
    decStr (f + 1) ('\\' :: x :: tail) = consFst d (decStr f tail) := by
  simp [decStr, hxu, hx]

theorem decStr_step_u (f : Nat) (n : Nat) (tail : List Char)
    (hn : n < 65536) (hsur : ¬(55296 ≤ n ∧ n ≤ 56319)) :
    decStr (f + 1) ('\\' :: 'u' :: (hex4 n ++ tail)) = consFst (Char.ofNat n) (decStr f tail) := by
  simp [decStr, hex4, hex4V_hex4 n hn, hsur]

theorem decStr_step_surr (f : Nat) (n m : Nat) (tail : List Char)
    (hn1 : 55296 ≤ n) (hn2 : n ≤ 56319) (hm1 : 56320 ≤ m) (hm2 : m ≤ 57343) :
    decStr (f + 1) (('\\' :: 'u' :: hex4 n) ++ (('\\' :: 'u' :: hex4 m) ++ tail)) =
      consFst (surrChar n m) (decStr f tail) := by
  simp [decStr, hex4, hex4V_hex4 n (by omega), hex4V_hex4 m (by omega), hn1, hn2, hm1, hm2]

theorem decStr_roundtrip (s : List Char) :
    ∀ (fuel : Nat) (rest : List Char), s.length < fuel →
      decStr fuel (s.flatMap escA ++ '"' :: rest) = some (s, rest) := by
  induction s with
  | nil =>
    intro fuel rest hf
    match fuel, hf with
    | f + 1, _ => simp [decStr]
  | cons c s ih =>
    intro fuel rest hf
    match fuel, hf with
    | f + 1, hf =>
      have hf' : s.length < f := by simpa using Nat.lt_of_succ_lt_succ hf
      have IH := ih f rest hf'
      have hvalid : Nat.isValidChar c.toNat := c.valid
      have hsplit : (c :: s).flatMap escA ++ '"' :: rest =
          escA c ++ (s.flatMap escA ++ '"' :: rest) := by
        simp
      rw [hsplit]
      by_cases h1 : c = '"'
      · subst h1
        rw [show escA '"' = ['\\', '"'] from rfl]
        rw [show (['\\', '"'] : List Char) ++ (s.flatMap escA ++ '"' :: rest) =
          '\\' :: '"' :: (s.flatMap escA ++ '"' :: rest) from rfl]
        rw [decStr_step_esc f '"' '"' _ (by decide) (by decide), IH]
        rfl
      by_cases h2 : c = '\\'
      · subst h2
        rw [show escA '\\' = ['\\', '\\'] from rfl]
        rw [show (['\\', '\\'] : List Char) ++ (s.flatMap escA ++ '"' :: rest) =
          '\\' :: '\\' :: (s.flatMap escA ++ '"' :: rest) from rfl]
        rw [decStr_step_esc f '\\' '\\' _ (by decide) (by decide), IH]
        rfl
      by_cases h3 : c = '\x08'
      · subst h3
        rw [show escA '\x08' = ['\\', 'b'] from rfl]
        rw [show (['\\', 'b'] : List Char) ++ (s.flatMap escA ++ '"' :: rest) =
          '\\' :: 'b' :: (s.flatMap escA ++ '"' :: rest) from rfl]
        rw [decStr_step_esc f 'b' '\x08' _ (by decide) (by decide), IH]
        rfl
      by_cases h4 : c = '\x0c'
      · subst h4
        rw [show escA '\x0c' = ['\\', 'f'] from rfl]
        rw [show (['\\', 'f'] : List Char) ++ (s.flatMap escA ++ '"' :: rest) =
          '\\' :: 'f' :: (s.flatMap escA ++ '"' :: rest) from rfl]
        rw [decStr_step_esc f 'f' '\x0c' _ (by decide) (by decide), IH]
        rfl
      by_cases h5 : c = '\n'
      · subst h5
        rw [show escA '\n' = ['\\', 'n'] from rfl]
        rw [show (['\\', 'n'] : List Char) ++ (s.flatMap escA ++ '"' :: rest) =
          '\\' :: 'n' :: (s.flatMap escA ++ '"' :: rest) from rfl]
        rw [decStr_step_esc f 'n' '\n' _ (by decide) (by decide), IH]
        rfl
      by_cases h6 : c = '\r'
      · subst h6
        rw [show escA '\r' = ['\\', 'r'] from rfl]
        rw [show (['\\', 'r'] : List Char) ++ (s.flatMap escA ++ '"' :: rest) =
          '\\' :: 'r' :: (s.flatMap escA ++ '"' :: rest) from rfl]
        rw [decStr_step_esc f 'r' '\r' _ (by decide) (by decide), IH]
        rfl
      by_cases h7 : c = '\t'
      · subst h7
        rw [show escA '\t' = ['\\', 't'] from rfl]
        rw [show (['\\', 't'] : List Char) ++ (s.flatMap escA ++ '"' :: rest) =
          '\\' :: 't' :: (s.flatMap escA ++ '"' :: rest) from rfl]
        rw [decStr_step_esc f 't' '\t' _ (by decide) (by decide), IH]
        rfl
      by_cases h8 : 0x20 ≤ c.toNat ∧ c.toNat ≤ 0x7e
      · rw [show escA c = [c] from by simp [escA, h1, h2, h3, h4, h5, h6, h7, h8]]
        rw [show ([c] : List Char) ++ (s.flatMap escA ++ '"' :: rest) =
          c :: (s.flatMap escA ++ '"' :: rest) from rfl]
        rw [decStr_step_lit f c _ h1 h2, IH]
        rfl
      by_cases h9 : c.toNat < 65536
      · rw [show escA c = '\\' :: 'u' :: hex4 c.toNat from by
          simp [escA, h1, h2, h3, h4, h5, h6, h7, h8, h9]]
        have hsur : ¬(55296 ≤ c.toNat ∧ c.toNat ≤ 56319) := by
          rcases hvalid with h | h
          · omega
          · omega
        rw [List.cons_append, List.cons_append]
        rw [decStr_step_u f c.toNat _ h9 hsur, IH]
        simp [consFst, Char.ofNat_toNat]
      · have hup : c.toNat < 1114112 := by
          rcases hvalid with h | h
          · omega
          · omega
        have hlo : 65536 ≤ c.toNat := by omega
        rw [show escA c =
            ('\\' :: 'u' :: hex4 (55296 + (c.toNat - 65536) / 1024)) ++
              ('\\' :: 'u' :: hex4 (56320 + (c.toNat - 65536) % 1024)) from by
          simp [escA, h1, h2, h3, h4, h5, h6, h7, h8, h9]]
        have hq : (c.toNat - 65536) / 1024 ≤ 1023 := by omega
        have hr : (c.toNat - 65536) % 1024 ≤ 1023 := by
          have := Nat.mod_lt (c.toNat - 65536) (show 0 < 1024 by omega)
          omega
        rw [List.append_assoc]
        rw [decStr_step_surr f (55296 + (c.toNat - 65536) / 1024)
          (56320 + (c.toNat - 65536) % 1024) _ (by omega) (by omega) (by omega) (by omega), IH]
        have hchar : surrChar (55296 + (c.toNat - 65536) / 1024)
            (56320 + (c.toNat - 65536) % 1024) = c := by
          unfold surrChar
          have harith : 65536 + (55296 + (c.toNat - 65536) / 1024 - 55296) * 1024 +
              (56320 + (c.toNat - 65536) % 1024 - 56320) = c.toNat := by
            have hdm := Nat.div_add_mod (c.toNat - 65536) 1024
            omega
          rw [harith, Char.ofNat_toNat]
        rw [hchar]
        rfl

theorem decPair_roundtrip (a b : List Char) (fuel : Nat) (rest : List Char)
    (ha : a.length < fuel) (hb : b.length < fuel) :
    decPair fuel (encPair (a, b) ++ rest) = some ((a, b), rest) := by
  have e2 := decStr_roundtrip b fuel (']' :: rest) hb
  have e1 := decStr_roundtrip a fuel
    (',' :: ' ' :: '"' :: (b.flatMap escA ++ '"' :: (']' :: rest))) ha
  have hshape : encPair (a, b) ++ rest =
      '[' :: '"' :: (a.flatMap escA ++ '"' ::
        (',' :: ' ' :: '"' :: (b.flatMap escA ++ '"' :: (']' :: rest)))) := by
    simp [encPair, encStr]
  rw [hshape]
  simp [decPair, e1, e2]

theorem decListAux_roundtrip (l : List (List Char × List Char)) :
    ∀ (fuel fuel2 : Nat) (rest : List Char), l ≠ [] →
      (∀ p ∈ l, p.1.length < fuel ∧ p.2.length < fuel) → l.length ≤ fuel2 →
      decListAux fuel fuel2 (joinComma (l.map encPair) ++ ']' :: rest) = some (l, rest) := by
  induction l with
  | nil => intro _ _ _ hne _ _; exact absurd rfl hne
  | cons p t ih =>
    intro fuel fuel2 rest _ hs hl
    match fuel2, hl with
    | f + 1, hl =>
      have hp := hs p (by simp)
      match t with
      | [] =>
        have := decPair_roundtrip p.1 p.2 fuel (']' :: rest) hp.1 hp.2
        simp only [List.map, joinComma]
        simp [decListAux, this]
      | q :: t' =>
        obtain ⟨pa, pb⟩ := p
        have hrec := ih fuel f rest (by simp)
          (fun x hx => hs x (List.mem_cons_of_mem _ hx))
          (by simpa using Nat.le_of_succ_le_succ hl)
        have hpr := decPair_roundtrip pa pb fuel
          (',' :: ' ' :: (joinComma ((q :: t').map encPair) ++ ']' :: rest)) hp.1 hp.2
        have hshape : joinComma (((pa, pb) :: q :: t').map encPair) ++ ']' :: rest =
            encPair (pa, pb) ++
              (',' :: ' ' :: (joinComma ((q :: t').map encPair) ++ ']' :: rest)) := by
          simp [joinComma]
        rw [hshape]
        simp only [decListAux]
        rw [hpr]
        simp only [List.map] at hrec
        simp [hrec]

theorem decList_roundtrip (l : List (List Char × List Char)) (fuel fuel2 : Nat)
    (rest : List Char)
    (hs : ∀ p ∈ l, p.1.length < fuel ∧ p.2.length < fuel) (hl : l.length ≤ fuel2) :
    decList fuel fuel2 (encPairList l ++ rest) = some (l, rest) := by
  match l with
  | [] => simp [encPairList, joinComma, decList]
  | p :: t =>
    have haux := decListAux_roundtrip (p :: t) fuel fuel2 rest (by simp) hs hl
    have hhead : ∃ tl, joinComma ((p :: t).map encPair) = '[' :: tl := by
      match t with
      | [] => exact ⟨_, rfl⟩
      | q :: t' =>
        refine ⟨(encStr p.1 ++ ',' :: ' ' :: encStr p.2) ++ [']'] ++
          ',' :: ' ' :: joinComma ((q :: t').map encPair), ?_⟩
        simp [joinComma, encPair]
    obtain ⟨tl, htl⟩ := hhead
    have hshape : encPairList (p :: t) ++ rest =
        '[' :: '[' :: (tl ++ ']' :: rest) := by
      simp only [encPairList]
      rw [htl]
      simp
    rw [hshape]
    have hback : ('[' : Char) :: (tl ++ ']' :: rest) =
        joinComma ((p :: t).map encPair) ++ ']' :: rest := by
      rw [htl]
      simp
    simp only [decList, reduceIte]
    rw [hback, haux]
    simp

theorem le_pairsLenBound (l : List (List Char × List Char)) :
    ∀ p ∈ l, p.1.length ≤ pairsLenBound l ∧ p.2.length ≤ pairsLenBound l := by
  induction l with
  | nil => intro p hp; simp at hp
  | cons q t ih =>
    intro p hp
    rcases List.mem_cons.mp hp with h | h
    · subst h
      simp only [pairsLenBound, List.foldr]
      omega
    · have h2 := ih p h
      simp only [pairsLenBound, List.foldr] at h2 ⊢
      omega

/-- The json.dumps image determines the pair list: the serialization is
injective. -/
theorem encPairList_inj (l1 l2 : List (List Char × List Char))
    (h : encPairList l1 = encPairList l2) : l1 = l2 := by
  set N := max (pairsLenBound l1) (pairsLenBound l2) + 1 with hN
  set N2 := max l1.length l2.length with hN2
  have r1 := decList_roundtrip l1 N N2 []
    (fun p hp => by
      have := le_pairsLenBound l1 p hp
      omega)
    (by omega)
  have r2 := decList_roundtrip l2 N N2 []
    (fun p hp => by
      have := le_pairsLenBound l2 p hp
      omega)
    (by omega)
  rw [h] at r1
  rw [r2] at r1
  injection r1 with r1
  exact ((Prod.mk.injEq _ _ _ _).mp r1).1.symm

theorem pairLe_iff (a b : String × String) :
    pairLe a b = true ↔ a.1 < b.1 ∨ (a.1 = b.1 ∧ a.2 ≤ b.2) := by
  simp [pairLe]

theorem pairLe_trans (a b c : String × String)
    (h1 : pairLe a b = true) (h2 : pairLe b c = true) : pairLe a c = true := by
  rw [pairLe_iff] at h1 h2 ⊢
  rcases h1 with h1 | ⟨h1e, h1le⟩ <;> rcases h2 with h2 | ⟨h2e, h2le⟩
  · exact Or.inl (lt_trans h1 h2)
  · exact Or.inl (h2e ▸ h1)
  · exact Or.inl (h1e ▸ h2)
  · exact Or.inr ⟨h1e.trans h2e, le_trans h1le h2le⟩

theorem pairLe_total (a b : String × String) : (pairLe a b || pairLe b a) = true := by
  rcases lt_trichotomy a.1 b.1 with h | h | h
  · simp [pairLe_iff, h]
  · rcases le_total a.2 b.2 with h2 | h2
    · have hab : pairLe a b = true := (pairLe_iff _ _).mpr (Or.inr ⟨h, h2⟩)
      simp [hab]
    · have hba : pairLe b a = true := (pairLe_iff _ _).mpr (Or.inr ⟨h.symm, h2⟩)
      simp [hba]
  · simp [pairLe_iff, h]

theorem pairLe_antisymm (a b : String × String)
    (h1 : pairLe a b = true) (h2 : pairLe b a = true) : a = b := by
  rw [pairLe_iff] at h1 h2
  rcases h1 with h1 | ⟨h1e, h1le⟩
  · rcases h2 with h2 | ⟨h2e, _⟩
    · exact absurd h2 (lt_asymm h1)
    · exact absurd (h2e ▸ h1) (lt_irrefl _)
  · rcases h2 with h2 | ⟨_, h2le⟩
    · exact absurd (h1e ▸ h2) (lt_irrefl _)
    · exact Prod.ext h1e (le_antisymm h1le h2le)

theorem pySortedPairs_perm (l : List (String × String)) : (pySortedPairs l).Perm l :=
  List.mergeSort_perm l pairLe

theorem pySortedPairs_sorted (l : List (String × String)) :
    (pySortedPairs l).Pairwise (fun a b => pairLe a b = true) :=
  List.sorted_mergeSort pairLe_trans pairLe_total l

theorem pySortedPairs_eq_of_perm (l1 l2 : List (String × String)) (h : l1.Perm l2) :
    pySortedPairs l1 = pySortedPairs l2 := by
  haveI : IsAntisymm (String × String) (fun a b => pairLe a b = true) := ⟨pairLe_antisymm⟩
  exact List.eq_of_perm_of_sorted
    ((pySortedPairs_perm l1).trans (h.trans (pySortedPairs_perm l2).symm))
    (pySortedPairs_sorted l1) (pySortedPairs_sorted l2)

theorem pyJsonDumpsPairs_inj (p1 p2 : List (String × String))
    (h : pyJsonDumpsPairs p1 = pyJsonDumpsPairs p2) : p1 = p2 := by
  have hdata : encPairList (p1.map (fun p => (p.1.data, p.2.data))) =
      encPairList (p2.map (fun p => (p.1.data, p.2.data))) :=
    congrArg String.data h
  have hmap := encPairList_inj _ _ hdata
  have hinj : Function.Injective (fun p : String × String => (p.1.data, p.2.data)) := by
    intro a b hab
    have h1 : a.1.data = b.1.data := congrArg Prod.fst hab
    have h2 : a.2.data = b.2.data := congrArg Prod.snd hab
    exact Prod.ext (String.ext h1) (String.ext h2)
  exact List.map_injective_iff.mpr hinj hmap

/-- The serialized sorted pair list is equal exactly when the pair
multisets are equal. -/
theorem dumps_sorted_eq_iff (p1 p2 : List (String × String)) :
    pyJsonDumpsPairs (pySortedPairs p1) = pyJsonDumpsPairs (pySortedPairs p2) ↔
      (p1 : Multiset (String × String)) = (p2 : Multiset (String × String)) := by
  constructor
  · intro h
    have hs := pyJsonDumpsPairs_inj _ _ h
    have : p1.Perm p2 :=
      ((pySortedPairs_perm p1).symm.trans (hs ▸ pySortedPairs_perm p2))
    exact Multiset.coe_eq_coe.mpr this
  · intro h
    have hperm := Multiset.coe_eq_coe.mp h
    rw [pySortedPairs_eq_of_perm _ _ hperm]

/-- The sorted form of a one-element pair list (without evaluating the
sort, which is defined by well-founded recursion). -/
theorem pySortedPairs_singleton (p : String × String) : pySortedPairs [p] = [p] :=
  List.perm_singleton.mp (pySortedPairs_perm [p])

/-- The sorted form of a duplicated pair. -/
theorem pySortedPairs_pair_twice (p : String × String) : pySortedPairs [p, p] = [p, p] := by
  have h := pySortedPairs_perm [p, p]
  rw [show [p, p] = List.replicate 2 p from rfl] at h ⊢
  exact List.perm_replicate.mp h

/-- C3, counterexample: the claim says the fingerprint is determined by
the pair-SET, but _compute_list_hash sorts the pair list keeping
duplicates: a job list containing the same (id, updated_at) pair once
and a job list containing it twice have equal pair-sets yet different
digests. -/
theorem C3_pair_set_counterexample :
    ([c3Job].map Toss.jobPair).toFinset = ([c3Job, c3Job].map Toss.jobPair).toFinset ∧
      Toss._compute_list_hash [c3Job] ≠ Toss._compute_list_hash [c3Job, c3Job] := by
  constructor
  · decide
  · unfold Toss._compute_list_hash Toss._list_hash_content
    rw [show [c3Job].map Toss.jobPair = [("A", "t")] from rfl,
      show [c3Job, c3Job].map Toss.jobPair = [("A", "t"), ("A", "t")] from rfl,
      pySortedPairs_singleton, pySortedPairs_pair_twice]
    decide

/-- C3, amended: the API-variant fingerprint is determined by the
MULTISET of (id, last-modified) pairs: equal pair multisets give equal
digests, and the serialized canonical form fed to SHA-256 is equal if
and only if the pair multisets are equal (so distinct multisets give
distinct digests up to a SHA-256 collision). Shown for the two cited
variants, namely Toss and Daangn. -/
theorem C3_fingerprint_multiset :
    (∀ l1 l2 : List Toss.TossJob,
      (((l1.map Toss.jobPair : List (String × String)) : Multiset (String × String)) =
          ((l2.map Toss.jobPair : List (String × String)) : Multiset (String × String)) →
        Toss._compute_list_hash l1 = Toss._compute_list_hash l2) ∧
      (Toss._list_hash_content l1 = Toss._list_hash_content l2 ↔
        ((l1.map Toss.jobPair : List (String × String)) : Multiset (String × String)) =
          ((l2.map Toss.jobPair : List (String × String)) : Multiset (String × String)))) ∧
    (∀ l1 l2 : List Daangn.DaangnJob,
      (((l1.map Daangn.jobPair : List (String × String)) : Multiset (String × String)) =
          ((l2.map Daangn.jobPair : List (String × String)) : Multiset (String × String)) →
        Daangn._compute_list_hash l1 = Daangn._compute_list_hash l2) ∧
      (Daangn._list_hash_content l1 = Daangn._list_hash_content l2 ↔
        ((l1.map Daangn.jobPair : List (String × String)) : Multiset (String × String)) =
          ((l2.map Daangn.jobPair : List (String × String)) : Multiset (String × String)))) := by
  constructor
  · intro l1 l2
    refine ⟨fun h => ?_, ?_⟩
    · unfold Toss._compute_list_hash Toss._list_hash_content
      exact congrArg sha256hex ((dumps_sorted_eq_iff _ _).mpr h)
    · unfold Toss._list_hash_content
      exact dumps_sorted_eq_iff _ _
  · intro l1 l2
    refine ⟨fun h => ?_, ?_⟩
    · unfold Daangn._compute_list_hash Daangn._list_hash_content
      exact congrArg sha256hex ((dumps_sorted_eq_iff _ _).mpr h)
    · unfold Daangn._list_hash_content
      exact dumps_sorted_eq_iff _ _

/-- C3, witness: concrete job lists with equal pair multisets (a swap)
get the same digest. -/
theorem C3_fingerprint_multiset_witness :
    Toss._compute_list_hash [c3wJobA, c3wJobB] = Toss._compute_list_hash [c3wJobB, c3wJobA] :=
  (C3_fingerprint_multiset.1 [c3wJobA, c3wJobB] [c3wJobB, c3wJobA]).1 (by decide)

/-- C4: the API-variant fingerprint returns the same hex digest on any
permutation of the job list, shown for the two cited variants (Toss and
Kakao). -/
theorem C4_fingerprint_perm_invariant :
    (∀ l1 l2 : List Toss.TossJob, l1.Perm l2 →
      Toss._compute_list_hash l1 = Toss._compute_list_hash l2) ∧
    (∀ l1 l2 : List Kakao.KakaoJob, l1.Perm l2 →
      Kakao._compute_list_hash l1 = Kakao._compute_list_hash l2) := by
  constructor
  · intro l1 l2 h
    unfold Toss._compute_list_hash Toss._list_hash_content
    rw [pySortedPairs_eq_of_perm _ _ (h.map _)]
  · intro l1 l2 h
    unfold Kakao._compute_list_hash Kakao._list_hash_content
    rw [pySortedPairs_eq_of_perm _ _ (h.map _)]

/-- C4, witness: a concrete two-job swap gets the same digest. -/
theorem C4_fingerprint_perm_invariant_witness :
    Toss._compute_list_hash [c4JobA, c4JobB] = Toss._compute_list_hash [c4JobB, c4JobA] :=
  C4_fingerprint_perm_invariant.1 [c4JobA, c4JobB] [c4JobB, c4JobA] (by decide)

/-- Splitting off the head of a shifted range map. -/
theorem range_map_shift {α : Type} (f : Nat → α) (m k : Nat) :
    (List.range (m + 1)).map (fun j => f (k + j)) =
      f k :: (List.range m).map (fun j => f (k + 1 + j)) := by
  rw [List.range_succ_eq_map]
  simp only [List.map_cons, List.map_map, Nat.add_zero]
  congr 1
  apply List.map_congr_left
  intro j _
  simp only [Function.comp_apply]
  congr 1
  omega

/-- Attempt count and sleep schedule of the tenacity loop: at least one
and at most remaining+1 attempts, and the sleeps are exactly the
exponential schedule for the attempts actually made. -/
theorem tenacityRun_spec (attempt : String → Nat → Except FetchExc String) (url : String) :
    ∀ (rem k : Nat),
      1 ≤ (tenacityRun attempt url k rem).2.1 ∧
      (tenacityRun attempt url k rem).2.1 ≤ rem + 1 ∧
      (tenacityRun attempt url k rem).2.2 =
        (List.range ((tenacityRun attempt url k rem).2.1 - 1)).map
          (fun j => waitExponential (k + j)) := by
  intro rem
  induction rem with
  | zero =>
    intro k
    unfold tenacityRun
    cases attempt url k <;> simp
  | succ r ih =>
    intro k
    unfold tenacityRun
    cases hA : attempt url k with
    | ok b => simp
    | error e =>
      by_cases hr : retryableExc e
      · rcases htr : tenacityRun attempt url (k + 1) r with ⟨res, nws⟩
        rcases nws with ⟨n, ws⟩
        have h2 := ih (k + 1)
        rw [htr] at h2
        simp only at h2
        obtain ⟨h21, h22, h23⟩ := h2
        simp only [hr, htr, if_pos]
        refine ⟨by omega, by omega, ?_⟩
        simp only [h23]
        rw [show n + 1 - 1 = (n - 1) + 1 from by omega, range_map_shift]
      · simp [hr]

/-- C2, counterexample: the claim says a 4xx response is surfaced
without any retry, but retry_if_exception_type((httpx.HTTPError, ...))
also matches httpx.HTTPStatusError for 4xx, so a permanent 404 is
attempted 3 times with sleeps 2 and 4 before being surfaced. -/
theorem C2_4xx_retried_counterexample :
    (fetch_url oracle404 "https://example.com/x").2.1 = 3 ∧
    (fetch_url oracle404 "https://example.com/x").2.2 = [2, 4] ∧
    (fetch_url oracle404 "https://example.com/x").1 = .error (.statusError 404) :=
  ⟨rfl, rfl, rfl⟩

/-- C2, amended: fetch_url makes between 1 and MAX_RETRIES = 3
attempts; the sleeps follow wait_exponential(multiplier=2, min=1,
max=10), i.e. sleep k is 2 * 2^(k-1) clamped into [1, 10] (2 then 4 for
a full retry budget), each sleep within [1, 10]; EVERY httpx error is
retried (status errors for 4xx as well as 5xx, timeouts, transport
errors) while only exceptions outside the httpx hierarchy are surfaced
without retry; and the error of the final exhausted attempt is re-raised
unchanged. -/
theorem C2_retry_policy (attempt : String → Nat → Except FetchExc String) (url : String) :
    (1 ≤ (fetch_url attempt url).2.1 ∧ (fetch_url attempt url).2.1 ≤ MAX_RETRIES) ∧
    ((fetch_url attempt url).2.2 =
      (List.range ((fetch_url attempt url).2.1 - 1)).map (fun j => waitExponential (1 + j))) ∧
    (∀ k, 1 ≤ waitExponential k ∧ waitExponential k ≤ 10) ∧
    ((∀ code, retryableExc (.statusError code) = true) ∧ retryableExc .timeout = true ∧
      (∀ m, retryableExc (.transportError m) = true) ∧
      (∀ m, retryableExc (.otherExc m) = false)) ∧
    (∀ e, attempt url 1 = .error e → retryableExc e = false →
      fetch_url attempt url = (.error e, 1, [])) ∧
    (∀ e1 e2 e3, attempt url 1 = .error e1 → attempt url 2 = .error e2 →
      attempt url 3 = .error e3 → retryableExc e1 = true → retryableExc e2 = true →
      fetch_url attempt url = (.error e3, 3, [2, 4])) := by
  have hspec := tenacityRun_spec attempt url (MAX_RETRIES - 1) 1
  refine ⟨⟨hspec.1, by simpa [MAX_RETRIES] using hspec.2.1⟩, hspec.2.2, ?_, ?_, ?_, ?_⟩
  · intro k
    unfold waitExponential
    omega
  · exact ⟨fun _ => rfl, rfl, fun _ => rfl, fun _ => rfl⟩
  · intro e h1 hr
    unfold fetch_url MAX_RETRIES
    unfold tenacityRun
    simp [h1, hr]
  · intro e1 e2 e3 h1 h2 h3 hr1 hr2
    unfold fetch_url MAX_RETRIES
    unfold tenacityRun
    simp only [h1, hr1, if_pos]
    unfold tenacityRun
    simp only [h2, hr2, if_pos]
    unfold tenacityRun
    simp only [h3]
    simp [waitExponential, RETRY_DELAY]

/-- C2, witness: a non-httpx exception on the first attempt is surfaced
immediately with no retry and no sleeps. -/
theorem C2_retry_policy_witness :
    fetch_url c2Oracle "https://example.com/y" = (.error (.otherExc "boom"), 1, []) :=
  (C2_retry_policy c2Oracle "https://example.com/y").2.2.2.2.1 (.otherExc "boom") rfl rfl

/-- C5: when a posting with the given canonical URL exists and its
stored content payload is byte-identical to the incoming one, upsert
returns SKIP and performs no write: postings and targets are unchanged
and the only store operation issued is the lookup. -/
theorem C5_upsert_skip (w : World) (tid : Nat) (title company content url : String)
    (old : JobPosting) (rest : List JobPosting)
    (hfind : w.postings.filter (fun p => p.original_url == url) = old :: rest)
    (heq : old.content_raw = content) :
    (upsert_job_posting w tid title company content url).1 = .SKIP ∧
    (upsert_job_posting w tid title company content url).2.postings = w.postings ∧
    (upsert_job_posting w tid title company content url).2.targets = w.targets ∧
    (upsert_job_posting w tid title company content url).2.log =
      w.log ++ [.selectPostings url] := by
  simp only [upsert_job_posting]
  rw [hfind]
  simp [heq, pyNow]

/-- C5, witness: upserting the byte-identical payload a second time
yields SKIP and leaves the stored posting untouched. -/
theorem C5_upsert_skip_witness :
    (upsert_job_posting c5World 7 "T2" "C2" "body" "https://x").1 = .SKIP ∧
    (upsert_job_posting c5World 7 "T2" "C2" "body" "https://x").2.postings =
      c5World.postings :=
  ⟨(C5_upsert_skip c5World 7 "T2" "C2" "body" "https://x" c5Posting [] rfl rfl).1,
   (C5_upsert_skip c5World 7 "T2" "C2" "body" "https://x" c5Posting [] rfl rfl).2.1⟩

/-- C6: when no posting with the given canonical URL exists, upsert
returns NEW and appends exactly one record carrying the given target
id, title, company, content and URL, with analysis_result null and
creation and update timestamps equal; the store operations are the
lookup and the one insert. -/
theorem C6_upsert_new (w : World) (tid : Nat) (title company content url : String)
    (hfind : w.postings.filter (fun p => p.original_url == url) = []) :
    (upsert_job_posting w tid title company content url).1 = .NEW ∧
    (upsert_job_posting w tid title company content url).2.postings = w.postings ++
      [{ crawl_target_id := tid, title := title, company_name := company,
         content_raw := content, original_url := url, analysis_result := none,
         created_at := w.clock, updated_at := w.clock }] ∧
    (upsert_job_posting w tid title company content url).2.targets = w.targets ∧
    (upsert_job_posting w tid title company content url).2.log = w.log ++
      [.selectPostings url,
       .insertPosting
         { crawl_target_id := tid, title := title, company_name := company,
           content_raw := content, original_url := url, analysis_result := none,
           created_at := w.clock, updated_at := w.clock }] := by
  simp only [upsert_job_posting]
  rw [hfind]
  simp [pyNow]

/-- C6, witness: a fresh URL inserts one record with equal creation and
update timestamps. -/
theorem C6_upsert_new_witness :
    (upsert_job_posting c6World 3 "T" "C" "body" "https://z").1 = .NEW ∧
    (upsert_job_posting c6World 3 "T" "C" "body" "https://z").2.postings =
      c6World.postings ++
        [{ crawl_target_id := 3, title := "T", company_name := "C", content_raw := "body",
           original_url := "https://z", analysis_result := none,
           created_at := c6World.clock, updated_at := c6World.clock }] :=
  ⟨(C6_upsert_new c6World 3 "T" "C" "body" "https://z" rfl).1,
   (C6_upsert_new c6World 3 "T" "C" "body" "https://z" rfl).2.1⟩

/-- C7: when a posting with the given canonical URL exists and its
stored content differs, upsert returns UPDATED and rewrites the
postings rowwise with postingUpdate, which touches only the title,
company name, content payload and update timestamp of rows with that
URL: creation timestamp, owning target id, canonical URL and analysis
result are preserved for every row, and rows with other URLs are
untouched; targets are unchanged and the store operations are the
lookup and the one update. -/
theorem C7_upsert_updated (w : World) (tid : Nat) (title company content url : String)
    (old : JobPosting) (rest : List JobPosting)
    (hfind : w.postings.filter (fun p => p.original_url == url) = old :: rest)
    (hne : old.content_raw ≠ content) :
    (upsert_job_posting w tid title company content url).1 = .UPDATED ∧
    (upsert_job_posting w tid title company content url).2.postings =
      w.postings.map (postingUpdate title company content url w.clock) ∧
    (∀ p : JobPosting,
      (postingUpdate title company content url w.clock p).created_at = p.created_at ∧
      (postingUpdate title company content url w.clock p).crawl_target_id = p.crawl_target_id ∧
      (postingUpdate title company content url w.clock p).original_url = p.original_url ∧
      (postingUpdate title company content url w.clock p).analysis_result = p.analysis_result) ∧
    (∀ p : JobPosting, p.original_url = url →
      postingUpdate title company content url w.clock p =
        { p with title := title, company_name := company, content_raw := content,
                 updated_at := w.clock }) ∧
    (∀ p : JobPosting, p.original_url ≠ url →
      postingUpdate title company content url w.clock p = p) ∧
    (upsert_job_posting w tid title company content url).2.targets = w.targets ∧
    (upsert_job_posting w tid title company content url).2.log =
      w.log ++ [.selectPostings url, .updatePosting url title company content w.clock] := by
  refine ⟨?_, ?_, ?_, ?_, ?_, ?_, ?_⟩
  · simp only [upsert_job_posting]
    rw [hfind]
    simp [hne, pyNow]
  · simp only [upsert_job_posting]
    rw [hfind]
    simp [hne, pyNow]
  · intro p
    unfold postingUpdate
    by_cases hp : p.original_url = url <;> simp [hp]
  · intro p hp
    unfold postingUpdate
    simp [hp]
  · intro p hp
    unfold postingUpdate
    simp [hp]
  · simp only [upsert_job_posting]
    rw [hfind]
    simp [hne, pyNow]
  · simp only [upsert_job_posting]
    rw [hfind]
    simp [hne, pyNow]

/-- C7, witness: a changed payload yields UPDATED and rewrites only the
in-place fields, preserving the creation timestamp and analysis result. -/
theorem C7_upsert_updated_witness :
    (upsert_job_posting c7World 9 "T2" "C2" "new-body" "https://y").1 = .UPDATED ∧
    (upsert_job_posting c7World 9 "T2" "C2" "new-body" "https://y").2.postings =
      c7World.postings.map (postingUpdate "T2" "C2" "new-body" "https://y" c7World.clock) :=
  ⟨(C7_upsert_updated c7World 9 "T2" "C2" "new-body" "https://y" c7Posting [] rfl
      (by decide)).1,
   (C7_upsert_updated c7World 9 "T2" "C2" "new-body" "https://y" c7Posting [] rfl
      (by decide)).2.1⟩

/-- C10: a target whose parser_type is neither an API kind nor a key of
the HTML registry gets one ERROR (the ValueError from get_parser is
caught), zero NEW/UPDATED/SKIP, and the world — store contents and
operation log — is completely untouched, provided the list fetch
succeeded. -/
theorem C10_unknown_parser_kind (env : Env) (w : World) (target : Target) (pt html : String)
    (hpt : target.parser_type = some pt)
    (hapi : pt ∉ API_PARSER_TYPES)
    (hgen : pt ≠ "generic")
    (hfetch : (fetch_url env.attempt target.list_url).1 = .ok html) :
    (crawl_target env w target).1 = ⟨0, 0, 0, 1⟩ ∧
    (crawl_target env w target).2 = w := by
  have h1 : pt ≠ "toss_job_groups_api" := by
    intro h
    exact hapi (by simp [API_PARSER_TYPES, h])
  have h2 : pt ≠ "daangn_greenhouse_api" := by
    intro h
    exact hapi (by simp [API_PARSER_TYPES, h])
  have h3 : pt ≠ "kakao_api" := by
    intro h
    exact hapi (by simp [API_PARSER_TYPES, h])
  have hbeq : (pt == "generic") = false := beq_eq_false_iff_ne.mpr hgen
  simp [crawl_target, hpt, h1, h2, h3, hfetch, getParser, PARSER_REGISTRY, List.lookup, hbeq]

/-- C10, witness: an active target registered with parser_type "wanted"
counts one ERROR and writes nothing. -/
theorem C10_unknown_parser_kind_witness :
    (crawl_target c10Env c10World c10Target).1 = ⟨0, 0, 0, 1⟩ ∧
    (crawl_target c10Env c10World c10Target).2 = c10World :=
  C10_unknown_parser_kind c10Env c10World c10Target "wanted" "<html></html>"
    rfl (by decide) (by decide) rfl

/-- C9: an HTML target whose computed fingerprint equals the stored one
returns all-zero counts, issues exactly one store operation — the
checked-timestamp update — leaves postings untouched, and rewrites only
the last_checked_at column of that target's row. -/
theorem C9_unchanged_fingerprint (env : Env) (w : World) (target : Target) (html : String)
    (hpt : target.parser_type.getD "generic" = "generic")
    (hfetch : (fetch_url env.attempt target.list_url).1 = .ok html)
    (hhash : target.last_list_hash =
      some (compute_hash
        ((env.generic (target.parser_config.getD "")).normalize_html html))) :
    (crawl_target env w target).1 = ⟨0, 0, 0, 0⟩ ∧
    (crawl_target env w target).2.postings = w.postings ∧
    (crawl_target env w target).2.log = w.log ++ [.updateChecked target.id w.clock] ∧
    (crawl_target env w target).2.targets = w.targets.map (fun t =>
      if t.id = target.id then { t with last_checked_at := some w.clock } else t) ∧
    (crawl_target env w target).2 = update_target_checked w target.id := by
  have hcrawl : crawl_target env w target = (⟨0, 0, 0, 0⟩, update_target_checked w target.id) := by
    simp [crawl_target, hpt, hfetch, getParser, PARSER_REGISTRY, List.lookup, hhash]
  rw [hcrawl]
  refine ⟨rfl, rfl, rfl, rfl, rfl⟩

/-- C9, witness: a concrete unchanged HTML target only advances its
checked timestamp. -/
theorem C9_unchanged_fingerprint_witness :
    (crawl_target c9Env c9World c9Target).1 = ⟨0, 0, 0, 0⟩ ∧
    (crawl_target c9Env c9World c9Target).2.log =
      c9World.log ++ [.updateChecked c9Target.id c9World.clock] :=
  ⟨(C9_unchanged_fingerprint c9Env c9World c9Target "<page>" rfl rfl rfl).1,
   (C9_unchanged_fingerprint c9Env c9World c9Target "<page>" rfl rfl rfl).2.2.1⟩

/-- Dispatch of crawl_target to the Toss adapter. -/
theorem crawl_target_toss (env : Env) (w : World) (target : Target)
    (hpt : target.parser_type = some "toss_job_groups_api") :
    crawl_target env w target = Toss.crawl_toss_api env w target := by
  simp [crawl_target, hpt]

/-- Dispatch of crawl_target to the Daangn adapter. -/
theorem crawl_target_daangn (env : Env) (w : World) (target : Target)
    (hpt : target.parser_type = some "daangn_greenhouse_api") :
    crawl_target env w target = Daangn.crawl_daangn_api env w target := by
  simp [crawl_target, hpt]

/-- Dispatch of crawl_target to the Kakao adapter. -/
theorem crawl_target_kakao (env : Env) (w : World) (target : Target)
    (hpt : target.parser_type = some "kakao_api") :
    crawl_target env w target = Kakao.crawl_kakao_api env w target := by
  simp [crawl_target, hpt]

/-- Toss adapter, fetch failure path. -/
theorem toss_requestExc_outcome (env : Env) (w : World) (target : Target) (e : String)
    (h : env.tossApi target.list_url = .error (.requestExc e)) :
    terminalErrorOutcome w target.id ("Failed to fetch API: " ++ e)
      (Toss.crawl_toss_api env w target) := by
  simp only [Toss.crawl_toss_api, h]
  exact ⟨rfl, rfl, rfl, rfl, rfl⟩

/-- Toss adapter, invalid JSON path. -/
theorem toss_jsonExc_outcome (env : Env) (w : World) (target : Target) (e : String)
    (h : env.tossApi target.list_url = .error (.jsonDecodeExc e)) :
    terminalErrorOutcome w target.id ("Invalid JSON response: " ++ e)
      (Toss.crawl_toss_api env w target) := by
  simp only [Toss.crawl_toss_api, h]
  exact ⟨rfl, rfl, rfl, rfl, rfl⟩

/-- Toss adapter, non-SUCCESS discriminator path. -/
theorem toss_nonsuccess_outcome (env : Env) (w : World) (target : Target)
    (payload : Toss.TossPayload)
    (h : env.tossApi target.list_url = .ok payload)
    (hrt : payload.resultType ≠ some "SUCCESS") :
    terminalErrorOutcome w target.id
      ("API returned non-SUCCESS: " ++ pyShowOpt payload.resultType)
      (Toss.crawl_toss_api env w target) := by
  simp only [Toss.crawl_toss_api, h]
  rw [if_pos hrt]
  exact ⟨rfl, rfl, rfl, rfl, rfl⟩

/-- Daangn adapter, fetch failure path. -/
theorem daangn_requestExc_outcome (env : Env) (w : World) (target : Target) (e : String)
    (h : env.daangnApi target.list_url = .error (.requestExc e)) :
    terminalErrorOutcome w target.id ("Failed to fetch API: " ++ e)
      (Daangn.crawl_daangn_api env w target) := by
  simp only [Daangn.crawl_daangn_api, h]
  exact ⟨rfl, rfl, rfl, rfl, rfl⟩

/-- Daangn adapter, invalid JSON path. -/
theorem daangn_jsonExc_outcome (env : Env) (w : World) (target : Target) (e : String)
    (h : env.daangnApi target.list_url = .error (.jsonDecodeExc e)) :
    terminalErrorOutcome w target.id ("Invalid JSON response: " ++ e)
      (Daangn.crawl_daangn_api env w target) := by
  simp only [Daangn.crawl_daangn_api, h]
  exact ⟨rfl, rfl, rfl, rfl, rfl⟩

/-- Kakao adapter, fetch failure path. -/
theorem kakao_requestExc_outcome (env : Env) (w : World) (target : Target) (e : String)
    (h : Kakao._fetch_all_jobs env target.list_url = .error (.requestExc e)) :
    terminalErrorOutcome w target.id ("Failed to fetch API: " ++ e)
      (Kakao.crawl_kakao_api env w target) := by
  simp only [Kakao.crawl_kakao_api, h]
  exact ⟨rfl, rfl, rfl, rfl, rfl⟩

/-- Kakao adapter, invalid JSON path. -/
theorem kakao_jsonExc_outcome (env : Env) (w : World) (target : Target) (e : String)
    (h : Kakao._fetch_all_jobs env target.list_url = .error (.jsonDecodeExc e)) :
    terminalErrorOutcome w target.id ("Invalid JSON response: " ++ e)
      (Kakao.crawl_kakao_api env w target) := by
  simp only [Kakao.crawl_kakao_api, h]
  exact ⟨rfl, rfl, rfl, rfl, rfl⟩

/-- C1, counterexample: the claim says every terminal adapter failure
records the failure message in the target's last-error field, but the
HTML path of crawl_target swallows a terminal list-fetch failure with
only an ERROR count: the run returns ERROR = 1 and leaves the world —
including the last-error column — completely untouched. -/
theorem C1_html_no_error_record_counterexample :
    (crawl_target c1Env c1World c1Target).1 = ⟨0, 0, 0, 1⟩ ∧
    (crawl_target c1Env c1World c1Target).2 = c1World ∧
    (crawl_target c1Env c1World c1Target).2.targets.map (fun t => t.last_error) = [none] :=
  ⟨rfl, rfl, rfl⟩

/-- C1, amended: a terminal adapter failure of an API target (fetch
failure, invalid JSON, or — for Toss — a non-SUCCESS discriminator)
records the failure message in the target's last-error column as the
only store operation and counts exactly one ERROR; a terminal list-fetch
failure of an HTML target counts exactly one ERROR with no store write
and no last-error record; in both cases the pass is not aborted:
crawl_all continues with the remaining targets from the resulting
world. -/
theorem C1_terminal_failures (env : Env) (w : World) (target : Target) :
    (∀ e, target.parser_type = some "toss_job_groups_api" →
      env.tossApi target.list_url = .error (.requestExc e) →
      terminalErrorOutcome w target.id ("Failed to fetch API: " ++ e)
        (crawl_target env w target)) ∧
    (∀ e, target.parser_type = some "toss_job_groups_api" →
      env.tossApi target.list_url = .error (.jsonDecodeExc e) →
      terminalErrorOutcome w target.id ("Invalid JSON response: " ++ e)
        (crawl_target env w target)) ∧
    (∀ payload, target.parser_type = some "toss_job_groups_api" →
      env.tossApi target.list_url = .ok payload →
      payload.resultType ≠ some "SUCCESS" →
      terminalErrorOutcome w target.id
        ("API returned non-SUCCESS: " ++ pyShowOpt payload.resultType)
        (crawl_target env w target)) ∧
    (∀ e, target.parser_type = some "daangn_greenhouse_api" →
      env.daangnApi target.list_url = .error (.requestExc e) →
      terminalErrorOutcome w target.id ("Failed to fetch API: " ++ e)
        (crawl_target env w target)) ∧
    (∀ e, target.parser_type = some "daangn_greenhouse_api" →
      env.daangnApi target.list_url = .error (.jsonDecodeExc e) →
      terminalErrorOutcome w target.id ("Invalid JSON response: " ++ e)
        (crawl_target env w target)) ∧
    (∀ e, target.parser_type = some "kakao_api" →
      Kakao._fetch_all_jobs env target.list_url = .error (.requestExc e) →
      terminalErrorOutcome w target.id ("Failed to fetch API: " ++ e)
        (crawl_target env w target)) ∧
    (∀ e, target.parser_type = some "kakao_api" →
      Kakao._fetch_all_jobs env target.list_url = .error (.jsonDecodeExc e) →
      terminalErrorOutcome w target.id ("Invalid JSON response: " ++ e)
        (crawl_target env w target)) ∧
    (∀ e, target.parser_type.getD "generic" ∉ API_PARSER_TYPES →
      (fetch_url env.attempt target.list_url).1 = .error e →
      (crawl_target env w target).1 = ⟨0, 0, 0, 1⟩ ∧
      (crawl_target env w target).2 = w) ∧
    (∀ ts total, crawl_all_from env w (target :: ts) total =
      crawl_all_from env (crawl_target env w target).2 ts
        (total.add (crawl_target env w target).1)) := by
  refine ⟨?_, ?_, ?_, ?_, ?_, ?_, ?_, ?_, ?_⟩
  · intro e hpt h
    rw [crawl_target_toss env w target hpt]
    exact toss_requestExc_outcome env w target e h
  · intro e hpt h
    rw [crawl_target_toss env w target hpt]
    exact toss_jsonExc_outcome env w target e h
  · intro payload hpt h hrt
    rw [crawl_target_toss env w target hpt]
    exact toss_nonsuccess_outcome env w target payload h hrt
  · intro e hpt h
    rw [crawl_target_daangn env w target hpt]
    exact daangn_requestExc_outcome env w target e h
  · intro e hpt h
    rw [crawl_target_daangn env w target hpt]
    exact daangn_jsonExc_outcome env w target e h
  · intro e hpt h
    rw [crawl_target_kakao env w target hpt]
    exact kakao_requestExc_outcome env w target e h
  · intro e hpt h
    rw [crawl_target_kakao env w target hpt]
    exact kakao_jsonExc_outcome env w target e h
  · intro e hpt hfetch
    have h1 : target.parser_type.getD "generic" ≠ "toss_job_groups_api" := by
      intro h
      exact hpt (by simp [API_PARSER_TYPES, h])
    have h2 : target.parser_type.getD "generic" ≠ "daangn_greenhouse_api" := by
      intro h
      exact hpt (by simp [API_PARSER_TYPES, h])
    have h3 : target.parser_type.getD "generic" ≠ "kakao_api" := by
      intro h
      exact hpt (by simp [API_PARSER_TYPES, h])
    simp [crawl_target, h1, h2, h3, hfetch]
  · intro ts total
    rfl

/-- C1, witness: a Toss target whose API fetch raises gets its
last-error column set to the formatted message and exactly one ERROR. -/
theorem C1_terminal_failures_witness :
    terminalErrorOutcome c1wWorld c1wTarget.id "Failed to fetch API: HTTP 500"
      (crawl_target c1wEnv c1wWorld c1wTarget) :=
  (C1_terminal_failures c1wEnv c1wWorld c1wTarget).1 "HTTP 500" rfl rfl

/-- Frame facts of one reconciliation: upsert never touches the
crawl_targets table, never rewinds the clock, and only appends
job_postings operations to the log. -/
theorem upsert_frame (w : World) (tid : Nat) (title company content url : String) :
    (upsert_job_posting w tid title company content url).2.targets = w.targets ∧
    w.clock ≤ (upsert_job_posting w tid title company content url).2.clock ∧
    ∃ ops, (upsert_job_posting w tid title company content url).2.log = w.log ++ ops ∧
      ∀ op ∈ ops, isPostingOp op = true := by
  simp only [upsert_job_posting, pyNow]
  cases hE : w.postings.filter (fun p => p.original_url == url) with
  | nil =>
    refine ⟨rfl, by simp, ⟨[.selectPostings url,
      .insertPosting ⟨tid, title, company, content, url, none, w.clock, w.clock⟩], by simp, ?_⟩⟩
    intro op hop
    rcases List.mem_cons.mp hop with h | h
    · subst h
      rfl
    · rcases List.mem_cons.mp h with h2 | h2
      · subst h2
        rfl
      · simp at h2
  | cons old rest =>
    dsimp only
    by_cases hc : old.content_raw = content
    · rw [if_pos hc]
      exact ⟨rfl, by simp, ⟨[.selectPostings url], by simp, by
        intro op hop
        rcases List.mem_cons.mp hop with h | h
        · subst h
          rfl
        · simp at h⟩⟩
    · rw [if_neg hc]
      refine ⟨rfl, by simp, ⟨[.selectPostings url,
        .updatePosting url title company content w.clock], by simp, ?_⟩⟩
      intro op hop
      rcases List.mem_cons.mp hop with h | h
      · subst h
        rfl
      · rcases List.mem_cons.mp h with h2 | h2
        · subst h2
          rfl
        · simp at h2

/-- Frame facts of the Toss per-group loop: it never touches
crawl_targets, never rewinds the clock, and only appends job_postings
operations. -/
theorem toss_processGroups_frame (env : Env) (tid : Nat) (groups : List Toss.TossGroup) :
    ∀ (i : Nat) (stats : Stats) (w : World),
      (Toss.processGroups env tid groups i stats w).2.targets = w.targets ∧
      w.clock ≤ (Toss.processGroups env tid groups i stats w).2.clock ∧
      ∃ ops, (Toss.processGroups env tid groups i stats w).2.log = w.log ++ ops ∧
        ∀ op ∈ ops, isPostingOp op = true := by
  induction groups with
  | nil =>
    intro i stats w
    exact ⟨rfl, le_refl _, ⟨[], by simp [Toss.processGroups], by simp⟩⟩
  | cons g rest ih =>
    intro i stats w
    rcases hpj : g.primary_job with _ | job
    · simp only [Toss.processGroups, hpj]
      exact ih (i + 1) stats w
    · rcases hau : job.absolute_url with _ | url
      · simp only [Toss.processGroups, hpj, hau]
        exact ih (i + 1) stats w
      · by_cases hurl : url = ""
        · simp only [Toss.processGroups, hpj, hau, if_pos hurl]
          exact ih (i + 1) stats w
        · rcases hex : env.tossItemExc i with _ | m
          · simp only [Toss.processGroups, hpj, hau, if_neg hurl, hex]
            rcases hU : upsert_job_posting w tid (job.title.getD "Untitled")
              (Toss._build_company_name (Toss._meta_to_dict job.metadata))
              (Toss._build_content_raw g job (Toss._meta_to_dict job.metadata)) url
              with ⟨r, w2⟩
            have hu := upsert_frame w tid (job.title.getD "Untitled")
              (Toss._build_company_name (Toss._meta_to_dict job.metadata))
              (Toss._build_content_raw g job (Toss._meta_to_dict job.metadata)) url
            rw [hU] at hu
            obtain ⟨hut, huc, ops1, hul, hups⟩ := hu
            obtain ⟨hrt, hrc, ops2, hrl, hrps⟩ := ih (i + 1) (stats.bump r) w2
            simp only [hU]
            refine ⟨by rw [hrt, hut], by dsimp only at huc; omega, ⟨ops1 ++ ops2, ?_, ?_⟩⟩
            · rw [hrl, hul, List.append_assoc]
            · intro op hop
              rcases List.mem_append.mp hop with h | h
              · exact hups op h
              · exact hrps op h
          · simp only [Toss.processGroups, hpj, hau, if_neg hurl, hex]
            exact ih (i + 1) { stats with ERROR := stats.ERROR + 1 } w

/-- Frame facts of the HTML per-item loop. -/
theorem processItems_frame (env : Env) (psr : ParserBehavior) (tid : Nat)
    (items : List JobItem) :
    ∀ (stats : Stats) (w : World),
      (processItems env psr tid items stats w).2.targets = w.targets ∧
      w.clock ≤ (processItems env psr tid items stats w).2.clock ∧
      ∃ ops, (processItems env psr tid items stats w).2.log = w.log ++ ops ∧
        ∀ op ∈ ops, isPostingOp op = true := by
  induction items with
  | nil =>
    intro stats w
    exact ⟨rfl, le_refl _, ⟨[], by simp [processItems], by simp⟩⟩
  | cons item rest ih =>
    intro stats w
    rcases hf : (fetch_url env.attempt item.url).1 with e | detail_html
    · simp only [processItems, hf]
      exact ih { stats with ERROR := stats.ERROR + 1 } w
    · rcases hd : psr.parse_detail detail_html with e | content_raw
      · simp only [processItems, hf, hd]
        exact ih { stats with ERROR := stats.ERROR + 1 } w
      · by_cases hc : content_raw = ""
        · simp only [processItems, hf, hd, if_pos hc]
          exact ih stats w
        · simp only [processItems, hf, hd, if_neg hc]
          rcases hU : upsert_job_posting w tid item.title item.company_name content_raw item.url
            with ⟨r, w2⟩
          have hu := upsert_frame w tid item.title item.company_name content_raw item.url
          rw [hU] at hu
          obtain ⟨hut, huc, ops1, hul, hups⟩ := hu
          obtain ⟨hrt, hrc, ops2, hrl, hrps⟩ := ih (stats.bump r) w2
          simp only [hU]
          refine ⟨by rw [hrt, hut], by dsimp only at huc; omega, ⟨ops1 ++ ops2, ?_, ?_⟩⟩
          · rw [hrl, hul, List.append_assoc]
          · intro op hop
            rcases List.mem_append.mp hop with h | h
            · exact hups op h
            · exact hrps op h

/-- C8: for a target whose computed fingerprint differs from the stored
one, the new fingerprint is persisted exactly once, by the final store
operation of the run (an updateHash carrying the computed digest and a
fresh timestamp, issued after all per-item operations, which touch only
job_postings); the target row ends with the new fingerprint and checked
timestamp regardless of item-level failures during the loop. Shown for
the Toss adapter and the HTML path, the two cited sources. -/
theorem C8_fingerprint_persisted_once (env : Env) (w : World) (target : Target) :
    (∀ (payload : Toss.TossPayload) (groups : List Toss.TossGroup) (current : String),
      target.parser_type = some "toss_job_groups_api" →
      env.tossApi target.list_url = .ok payload →
      payload.resultType = some "SUCCESS" →
      payload.success.getD [] = groups →
      groups ≠ [] →
      current = Toss._compute_list_hash (groups.filterMap (fun g => g.primary_job)) →
      target.last_list_hash ≠ some current →
      (∃ ops, (crawl_target env w target).2.log =
          w.log ++ ops ++
            [.updateHash target.id current ((crawl_target env w target).2.clock - 1)] ∧
        ∀ op ∈ ops, isPostingOp op = true) ∧
      (crawl_target env w target).2.targets = w.targets.map (fun r =>
        if r.id = target.id then
          { r with last_list_hash := some current,
                   last_checked_at := some ((crawl_target env w target).2.clock - 1) }
        else r) ∧
      w.clock ≤ (crawl_target env w target).2.clock - 1) ∧
    (∀ (html : String) (items : List JobItem) (current : String),
      target.parser_type.getD "generic" = "generic" →
      (fetch_url env.attempt target.list_url).1 = .ok html →
      (env.generic (target.parser_config.getD "")).parse_list html = .ok items →
      current = compute_hash
        ((env.generic (target.parser_config.getD "")).normalize_html html) →
      target.last_list_hash ≠ some current →
      (∃ ops, (crawl_target env w target).2.log =
          w.log ++ ops ++
            [.updateHash target.id current ((crawl_target env w target).2.clock - 1)] ∧
        ∀ op ∈ ops, isPostingOp op = true) ∧
      (crawl_target env w target).2.targets = w.targets.map (fun r =>
        if r.id = target.id then
          { r with last_list_hash := some current,
                   last_checked_at := some ((crawl_target env w target).2.clock - 1) }
        else r) ∧
      w.clock ≤ (crawl_target env w target).2.clock - 1) := by
  constructor
  · intro payload groups current hpt hok hrt hgroups hne hcur hlast
    rcases hW : Toss.processGroups env target.id groups 0 ⟨0, 0, 0, 0⟩ w with ⟨s1, w1⟩
    have hcr : crawl_target env w target = (s1, update_target_hash w1 target.id current) := by
      rw [crawl_target_toss env w target hpt]
      simp only [Toss.crawl_toss_api, hok, hgroups]
      rw [if_neg (by simp [hrt])]
      rw [if_neg (show ¬(groups.isEmpty = true) from by simp [hne])]
      rw [← hcur]
      rw [if_neg hlast]
      simp only [hW]
    have hframe := toss_processGroups_frame env target.id groups 0 ⟨0, 0, 0, 0⟩ w
    rw [hW] at hframe
    obtain ⟨hft, hfc, ops, hfl, hfp⟩ := hframe
    dsimp only at hft hfc hfl
    refine ⟨⟨ops, ?_, hfp⟩, ?_, ?_⟩
    · rw [hcr]
      simp only [update_target_hash, pyNow]
      rw [hfl, Nat.add_sub_cancel, List.append_assoc]
    · rw [hcr]
      simp only [update_target_hash, pyNow]
      rw [hft, Nat.add_sub_cancel]
    · rw [hcr]
      simp only [update_target_hash, pyNow]
      omega
  · intro html items current hpt hfetch hparse hcur hlast
    by_cases hi : items = []
    · have hcr : crawl_target env w target =
          (⟨0, 0, 0, 0⟩, update_target_hash w target.id current) := by
        simp only [crawl_target, hpt]
        rw [if_neg (by decide), if_neg (by decide), if_neg (by decide)]
        simp only [hfetch, getParser, PARSER_REGISTRY, List.lookup, beq_self_eq_true]
        rw [← hcur]
        rw [if_neg hlast]
        simp only [hparse, hi, List.isEmpty_nil, if_true]
      refine ⟨⟨[], ?_, by simp⟩, ?_, ?_⟩
      · rw [hcr]
        simp only [update_target_hash, pyNow]
        rw [Nat.add_sub_cancel]
        simp
      · rw [hcr]
        simp only [update_target_hash, pyNow]
        rw [Nat.add_sub_cancel]
      · rw [hcr]
        simp only [update_target_hash, pyNow]
        omega
    · rcases hW : processItems env (env.generic (target.parser_config.getD ""))
          target.id items ⟨0, 0, 0, 0⟩ w with ⟨s1, w1⟩
      have hcr : crawl_target env w target =
          (s1, update_target_hash w1 target.id current) := by
        simp only [crawl_target, hpt]
        rw [if_neg (by decide), if_neg (by decide), if_neg (by decide)]
        simp only [hfetch, getParser, PARSER_REGISTRY, List.lookup, beq_self_eq_true]
        rw [← hcur]
        rw [if_neg hlast]
        simp only [hparse]
        rw [if_neg (show ¬(items.isEmpty = true) from by simp [hi])]
        simp only [hW]
      have hframe := processItems_frame env (env.generic (target.parser_config.getD ""))
        target.id items ⟨0, 0, 0, 0⟩ w
      rw [hW] at hframe
      obtain ⟨hft, hfc, ops, hfl, hfp⟩ := hframe
      dsimp only at hft hfc hfl
      refine ⟨⟨ops, ?_, hfp⟩, ?_, ?_⟩
      · rw [hcr]
        simp only [update_target_hash, pyNow]
        rw [hfl, Nat.add_sub_cancel, List.append_assoc]
      · rw [hcr]
        simp only [update_target_hash, pyNow]
        rw [hft, Nat.add_sub_cancel]
      · rw [hcr]
        simp only [update_target_hash, pyNow]
        omega

/-- C8, witness: a concrete Toss target with no stored fingerprint ends
the run with the computed fingerprint and a fresh checked timestamp on
its row. -/
theorem C8_fingerprint_persisted_once_witness :
    (crawl_target c8Env c8World c8Target).2.targets = c8World.targets.map (fun r =>
      if r.id = c8Target.id then
        { r with
          last_list_hash := some (Toss._compute_list_hash
            ((c8Payload.success.getD []).filterMap (fun g => g.primary_job))),
          last_checked_at := some ((crawl_target c8Env c8World c8Target).2.clock - 1) }
      else r) ∧
    c8World.clock ≤ (crawl_target c8Env c8World c8Target).2.clock - 1 :=
  ⟨((C8_fingerprint_persisted_once c8Env c8World c8Target).1 c8Payload
      (c8Payload.success.getD []) _ rfl rfl rfl rfl (by decide) rfl (by simp [c8Target])).2.1,
   ((C8_fingerprint_persisted_once c8Env c8World c8Target).1 c8Payload
      (c8Payload.success.getD []) _ rfl rfl rfl rfl (by decide) rfl (by simp [c8Target])).2.2⟩
